import Mathlib

/-!
Shallow embedding of `rsimusim/dataset.py` (dataset construction subsystem).

Times and array entries are modelled as rationals (`ℚ`); numpy helper
functions (`isclose`, `allclose`, `diff`, `clip`, `linspace`, `argmin`,
`flatnonzero(...)[0]`, negative-index access) are given explicit
definitions mirroring numpy/Python semantics.  External numeric
primitives that the repository consumes as black boxes
(`crisp.rotations.slerp`, `crisp.fastintegrate.integrate_gyro_quaternion_uniform`,
`imusim` QuaternionArray.unflipped) are bundled in an `Ext` structure and
universally quantified in the theorems; the only contract carried is that
`unflipped` preserves array length (it is an elementwise sign fix).

Python exceptions are modelled by `PyError`; mutating methods return the
post-call object state together with an optional raised error, because a
Python `raise` leaves earlier attribute assignments of the same call in
place.
-/

namespace Rsimusim

/-- Quaternion with rational components, standing for the w/x/y/z quaternions
of `imusim.maths.quaternions`. -/
structure Quat where
  w : ℚ
  x : ℚ
  y : ℚ
  z : ℚ
deriving DecidableEq, Repr, Inhabited

/-- Conjugate of a quaternion: negate the vector part (imusim `Quaternion.conjugate`;
this is also what the source line `q *= np.array([1, -1, -1, -1])` performs on
each row of an (N,4) quaternion array). -/
def Quat.conjugate (q : Quat) : Quat := ⟨q.w, -q.x, -q.y, -q.z⟩

/-- Three-dimensional point or vector with rational coordinates. -/
structure Vec3 where
  vx : ℚ
  vy : ℚ
  vz : ℚ
deriving DecidableEq, Repr, Inhabited

/-- Python exceptions that the embedded code can raise. -/
inductive PyError where
  | datasetError (msg : String)
  | indexError
  | attributeError
  | typeError
  | valueError
  | zeroDivisionError
deriving DecidableEq, Repr

/-- Numpy `np.isclose(a, b)` with default tolerances rtol = 1e-5, atol = 1e-8. -/
def npIsclose (a b : ℚ) : Prop := |a - b| ≤ 1 / 100000000 + (1 / 100000) * |b|

instance (a b : ℚ) : Decidable (npIsclose a b) :=
  inferInstanceAs (Decidable (_ ≤ _))

/-- Numpy `np.allclose(xs, b)` for a vector first argument and scalar second. -/
def npAllclose (xs : List ℚ) (b : ℚ) : Prop := ∀ a ∈ xs, npIsclose a b

instance (xs : List ℚ) (b : ℚ) : Decidable (npAllclose xs b) :=
  inferInstanceAs (Decidable (∀ a ∈ xs, npIsclose a b))

/-- Numpy `np.diff`: consecutive differences. -/
def npDiff (xs : List ℚ) : List ℚ := List.zipWith (fun a b => b - a) xs xs.tail

/-- Numpy `np.clip(x, lo, hi)`. -/
def npClip (x lo hi : ℚ) : ℚ := max lo (min x hi)

/-- Numpy `np.linspace(a, b, n)`: n points from a to b inclusive; the final
point is exactly b (numpy sets the endpoint explicitly; over ℚ the closed
formula already gives it exactly). -/
def npLinspace (a b : ℚ) : ℕ → List ℚ
  | 0 => []
  | 1 => [a]
  | Nat.succ (Nat.succ m) =>
      (List.range (m + 2)).map fun k : ℕ => a + (b - a) * (k : ℚ) / ((m : ℚ) + 1)

/-- Python sequence indexing `xs[i]` for numpy arrays: negative indices count
from the end; out-of-range access is an IndexError (modelled as `none`). -/
def pyGet (xs : List α) (i : ℤ) : Option α :=
  if 0 ≤ i then xs.get? i.toNat
  else if 0 ≤ (xs.length : ℤ) + i then xs.get? ((xs.length : ℤ) + i).toNat
  else none

/-- Semantics of `np.flatnonzero(cond)[0]` over a predicate: index of the
first element satisfying the predicate, if any. -/
def firstIdx (p : ℚ → Prop) [DecidablePred p] : List ℚ → Option ℕ
  | [] => none
  | x :: xs => if p x then some 0 else (firstIdx p xs).map (· + 1)

/-- Numpy `np.argmin`: index of the first occurrence of the minimum value
(0 for an empty array never occurs in the embedded code paths). -/
def npArgmin : List ℚ → ℕ
  | [] => 0
  | [_] => 0
  | x :: y :: rest =>
      let j := npArgmin (y :: rest)
      if x ≤ (y :: rest).getD j 0 then 0 else j + 1

/-- External black-box numeric primitives consumed by `dataset.py`:
`crisp.rotations.slerp`, `crisp.fastintegrate.integrate_gyro_quaternion_uniform`
(with optional initial quaternion), and imusim `QuaternionArray.unflipped`.
The sole contract carried is that unflipping is elementwise and therefore
preserves the number of samples. -/
structure Ext where
  slerp : Quat → Quat → ℚ → Quat
  integrate : List (List ℚ) → ℚ → Option Quat → List Quat
  unflip : List Quat → List Quat
  unflip_length : ∀ l, (unflip l).length = l.length

/-- Camera of the structure-from-motion (NVM) reconstruction model. -/
structure Camera where
  framenumber : ℤ
  position : Vec3
  orientation : Quat
deriving DecidableEq, Repr

/-- Point of the reconstruction model. -/
structure NvmPoint where
  position : Vec3
deriving DecidableEq, Repr

/-- Reconstruction model: cameras and 3-D points. -/
structure NvmModel where
  cameras : List Camera
  points : List NvmPoint
deriving DecidableEq, Repr

/-- Landmark namedtuple of `dataset.py`. -/
structure Landmark where
  position : Vec3
deriving DecidableEq, Repr

/-- An (n, d) numpy array of rationals: rows plus the width recorded in the
shape (so that an empty (0, d) array keeps its width). -/
structure Mat where
  rows : List (List ℚ)
  cols : ℕ
deriving DecidableEq, Repr

/-- Row of four components read as a quaternion (used on rows whose width
has been checked to be 4). -/
def quatOfList (r : List ℚ) : Quat := ⟨r.getD 0 0, r.getD 1 0, r.getD 2 0, r.getD 3 0⟩

/-- Quaternion written out as a row of four components. -/
def quatToList (q : Quat) : List ℚ := [q.w, q.x, q.y, q.z]

/-- The derived trajectory variants of `Dataset._update_trajectory`: splined
position-only, rotation-only, or combined, remembering the sample series. -/
inductive Trajectory where
  | splinedPosition (pos : List ℚ × List Vec3)
  | splinedRotation (ori : List ℚ × List Quat)
  | splinedFull (pos : List ℚ × List Vec3) (ori : List ℚ × List Quat)
deriving DecidableEq, Repr

/-- The `Dataset` object state. -/
structure Dataset where
  _position_data : Option (List ℚ × List Vec3)
  _orientation_data : Option (List ℚ × List Quat)
  trajectory : Option Trajectory
  landmarks : List Landmark
deriving DecidableEq, Repr

/-- Dataset.__init__. -/
def Dataset.init : Dataset := ⟨none, none, none, []⟩

/-- Dataset._update_trajectory: rebuild the splined trajectory from whichever
series are present (no branch runs when both are absent). -/
def Dataset._update_trajectory (ds : Dataset) : Dataset :=
  match ds._position_data, ds._orientation_data with
  | some p, none => { ds with trajectory := some (.splinedPosition p) }
  | none, some o => { ds with trajectory := some (.splinedRotation o) }
  | some p, some o => { ds with trajectory := some (.splinedFull p o) }
  | none, none => ds

/-- Comparison used by `sorted(nvm_model.cameras, key=lambda c: c.framenumber)`. -/
def camLE (a b : Camera) : Prop := a.framenumber ≤ b.framenumber

instance : DecidableRel camLE := fun a b => inferInstanceAs (Decidable (a.framenumber ≤ b.framenumber))

instance : IsTotal Camera camLE := ⟨fun a b => le_total a.framenumber b.framenumber⟩

instance : IsTrans Camera camLE := ⟨fun _ _ _ h1 h2 => le_trans h1 h2⟩

/-- Python `sorted(cameras, key=lambda c: c.framenumber)` (a stable sort on
the frame number key). -/
def sortCameras (cs : List Camera) : List Camera := List.insertionSort camLE cs

/-- Evaluation of the time mapping in position/orientation ingestion:
`frame_time = frame_to_time_func if frame_to_time_func else lambda n: float(n) / camera_fps`,
applied to a frame number.  Calling the lambda with `camera_fps = None`
raises a TypeError; a zero frame rate raises ZeroDivisionError. -/
def frameTime (frame_to_time_func : Option (ℤ → ℚ)) (camera_fps : Option ℚ) (n : ℤ) :
    Except PyError ℚ :=
  match frame_to_time_func with
  | some f => .ok (f n)
  | none =>
      match camera_fps with
      | none => .error .typeError
      | some r => if r = 0 then .error .zeroDivisionError else .ok ((n : ℚ) / r)

/-- The list comprehension `[frame_time(c.framenumber) for c in cameras]`. -/
def cameraTimesLoop (fttf : Option (ℤ → ℚ)) (fps : Option ℚ) : List Camera → Except PyError (List ℚ)
  | [] => .ok []
  | c :: cs =>
      match frameTime fttf fps c.framenumber with
      | .error e => .error e
      | .ok t =>
          match cameraTimesLoop fttf fps cs with
          | .error e => .error e
          | .ok ts => .ok (t :: ts)

/-- Dataset.position_from_nvm.  The guard is translated exactly as written in
the source: it compares `nvm_model is None` with `frame_to_time_func is None`
(the error message speaks about `camera_fps` instead). -/
def Dataset.position_from_nvm (ds : Dataset) (nvm_model : Option NvmModel)
    (frame_to_time_func : Option (ℤ → ℚ)) (camera_fps : Option ℚ) :
    Dataset × Option PyError :=
  if nvm_model.isNone = frame_to_time_func.isNone then
    (ds, some (.datasetError "Must specify frame_to_time_func OR camera_fps, not both or none of them"))
  else
    match nvm_model with
    | none => (ds, some .attributeError)
    | some model =>
        let cameras := sortCameras model.cameras
        match cameraTimesLoop frame_to_time_func camera_fps cameras with
        | .error e => (ds, some e)
        | .ok camera_times =>
            if cameras.isEmpty then
              (ds, some .valueError)
            else
              let camera_pos := cameras.map (·.position)
              let ds1 := { ds with _position_data := some (camera_times, camera_pos) }
              (ds1._update_trajectory, none)

/-- One step of the resampling loop body of `resample_quaternion_array`:
find the first original timestamp at or above the target time, copy the
sample if the timestamps agree within tolerance, otherwise slerp between the
bracketing samples at the time ratio. -/
def resampleAt (ext : Ext) (qa : List Quat) (timestamps : List ℚ) (t : ℚ) :
    Except PyError Quat :=
  match firstIdx (fun s => t ≤ s) timestamps with
  | none => .error .indexError
  | some i =>
      match pyGet timestamps (i : ℤ) with
      | none => .error .indexError
      | some t1 =>
          if npIsclose t1 t then
            match pyGet qa (i : ℤ) with
            | none => .error .indexError
            | some q => .ok q
          else
            match pyGet timestamps ((i : ℤ) - 1), pyGet qa ((i : ℤ) - 1), pyGet qa (i : ℤ) with
            | some t0, some q0, some q1 =>
                let tau := (t - t0) / (t1 - t0)
                .ok (ext.slerp q0 q1 tau)
            | _, _, _ => .error .indexError

/-- The `for t in timestamps_new` accumulation loop of `resample_quaternion_array`. -/
def resampleLoop (ext : Ext) (qa : List Quat) (timestamps : List ℚ) :
    List ℚ → Except PyError (List Quat)
  | [] => .ok []
  | t :: rest =>
      match resampleAt ext qa timestamps t with
      | .error e => .error e
      | .ok q =>
          match resampleLoop ext qa timestamps rest with
          | .error e => .error e
          | .ok qs => .ok (q :: qs)

/-- resample_quaternion_array: resample a quaternion series to `resize`
(default: input length) timestamps evenly spaced over the input time span. -/
def resample_quaternion_array (ext : Ext) (qa : List Quat) (timestamps : List ℚ)
    (resize : Option ℕ) : Except PyError (List Quat × List ℚ) :=
  let num_samples := resize.getD qa.length
  match pyGet timestamps 0, pyGet timestamps (-1) with
  | some t0, some tlast =>
      let timestamps_new := npLinspace t0 tlast num_samples
      match resampleLoop ext qa timestamps timestamps_new with
      | .error e => .error e
      | .ok new_q => .ok (new_q, timestamps_new)
  | _, _ => .error .indexError

/-- quaternion_slerp: unpack both quaternions, delegate to crisp slerp, repack. -/
def quaternion_slerp (ext : Ext) (q0 q1 : Quat) (tau : ℚ) : Quat := ext.slerp q0 q1 tau

/-- quaternion_array_interpolate: bracket the query time by the first sample
time strictly above it and slerp with the clamped time ratio.  The lookup of
index `i - 1` follows Python indexing, so for `i = 0` it wraps to the last
element instead of failing. -/
def quaternion_array_interpolate (ext : Ext) (qa : List Quat) (qtimes : List ℚ) (t : ℚ) :
    Except PyError Quat :=
  match firstIdx (fun s => t < s) qtimes with
  | none => .error .indexError
  | some i =>
      match pyGet qa ((i : ℤ) - 1), pyGet qa (i : ℤ), pyGet qtimes ((i : ℤ) - 1), pyGet qtimes (i : ℤ) with
      | some q0, some q1, some t0, some t1 =>
          let tau := npClip ((t - t0) / (t1 - t0)) 0 1
          .ok (quaternion_slerp ext q0 q1 tau)
      | _, _, _, _ => .error .indexError

/-- Dataset.orientation_from_nvm: same (buggy) time-mapping guard as
position ingestion, then unflip the camera orientations and resample them to
a uniform time grid before storing the series. -/
def Dataset.orientation_from_nvm (ext : Ext) (ds : Dataset) (nvm_model : Option NvmModel)
    (frame_to_time_func : Option (ℤ → ℚ)) (camera_fps : Option ℚ) :
    Dataset × Option PyError :=
  if nvm_model.isNone = frame_to_time_func.isNone then
    (ds, some (.datasetError "Must specify frame_to_time_func OR camera_fps, not both or none of them"))
  else
    match nvm_model with
    | none => (ds, some .attributeError)
    | some model =>
        let cameras := sortCameras model.cameras
        match cameraTimesLoop frame_to_time_func camera_fps cameras with
        | .error e => (ds, some e)
        | .ok camera_times =>
            let camera_orientations := ext.unflip (cameras.map (·.orientation))
            match resample_quaternion_array ext camera_orientations camera_times none with
            | .error e => (ds, some e)
            | .ok (qs2, times2) =>
                let ds1 := { ds with _orientation_data := some (times2, qs2) }
                (ds1._update_trajectory, none)

/-- Dataset.orientation_from_gyro: integrate 3-wide angular velocity after a
uniform-spacing check, or use 4-wide data directly as quaternions; the stored
series is unflipped. -/
def Dataset.orientation_from_gyro (ext : Ext) (ds : Dataset) (gyro_data : Mat)
    (gyro_times : List ℚ) : Dataset × Option PyError :=
  let n := gyro_data.rows.length
  let d := gyro_data.cols
  if d = 3 then
    match pyGet gyro_times 1, pyGet gyro_times 0 with
    | some ta, some tb =>
        let dt := ta - tb
        if ¬ npAllclose (npDiff gyro_times) dt then
          (ds, some (.datasetError "gyro timestamps must be uniformly sampled"))
        else
          let q := ext.integrate gyro_data.rows dt none
          let ds1 := { ds with _orientation_data := some (gyro_times, ext.unflip q) }
          (ds1._update_trajectory, none)
    | _, _ => (ds, some .indexError)
  else if d = 4 then
    let q := gyro_data.rows.map quatOfList
    let ds1 := { ds with _orientation_data := some (gyro_times, ext.unflip q) }
    (ds1._update_trajectory, none)
  else
    (ds, some (.datasetError ("Gyro data must have shape (N,3) or (N, 4), was " ++
      toString n ++ " by " ++ toString d)))

/-- Dataset.landmarks_from_nvm: append one Landmark per reconstruction point
(the Python loop appends them one by one; no step can fail once the model is
present, so the batched append is the same function). -/
def Dataset.landmarks_from_nvm (ds : Dataset) (nvm_model : Option NvmModel) :
    Dataset × Option PyError :=
  match nvm_model with
  | none => (ds, some .attributeError)
  | some model =>
      ({ ds with landmarks := ds.landmarks ++ model.points.map (fun p => ⟨p.position⟩) }, none)

/-- DatasetBuilder.LANDMARK_SOURCES. -/
def LANDMARK_SOURCES : List String := ["nvm"]

/-- DatasetBuilder.SOURCES = ('imu',) + LANDMARK_SOURCES. -/
def SOURCES : List String := ["imu"] ++ LANDMARK_SOURCES

/-- The `DatasetBuilder` object state. -/
structure DatasetBuilder where
  _nvm_model : Option NvmModel
  _nvm_camera_fps : Option ℚ
  _gyro_data : Option Mat
  _gyro_times : Option (List ℚ)
  _gyro_quat : Option (List Quat)
  _orientation_source : Option String
  _position_source : Option String
  _landmark_source : Option String
deriving Repr

/-- DatasetBuilder.__init__ (the gyro quaternion cache is also unset). -/
def DatasetBuilder.init : DatasetBuilder := ⟨none, none, none, none, none, none, none, none⟩

/-- DatasetBuilder.add_source_nvm. -/
def DatasetBuilder.add_source_nvm (b : DatasetBuilder) (nvm : NvmModel) (camera_fps : ℚ) :
    DatasetBuilder × Option PyError :=
  match b._nvm_model with
  | none => ({ b with _nvm_model := some nvm, _nvm_camera_fps := some camera_fps }, none)
  | some _ => (b, some (.datasetError "Can only add one NVM source"))

/-- DatasetBuilder.add_source_gyro: shape validation, then (in source order)
storing the raw data and timestamps, computing the sample interval, checking
uniform spacing, and eagerly integrating on success.  The stores happen
before the interval and uniformity steps, so those failures leave the data
assigned. -/
def DatasetBuilder.add_source_gyro (ext : Ext) (b : DatasetBuilder) (gyro_data : Mat)
    (gyro_times : List ℚ) : DatasetBuilder × Option PyError :=
  let n := gyro_data.rows.length
  let d := gyro_data.cols
  if ¬ (n = gyro_times.length) then
    (b, some (.datasetError "Gyro data and timestamps length did not match"))
  else if ¬ (d = 3) then
    (b, some (.datasetError "Gyro data must have shape Nx3"))
  else
    match b._gyro_data with
    | none =>
        let b1 := { b with _gyro_data := some gyro_data, _gyro_times := some gyro_times }
        match pyGet gyro_times 1, pyGet gyro_times 0 with
        | some ta, some tb =>
            let dt := ta - tb
            if ¬ npAllclose (npDiff gyro_times) dt then
              (b1, some (.datasetError "Gyro samples must be uniformly sampled"))
            else
              ({ b1 with _gyro_quat := some (ext.integrate gyro_data.rows dt none) }, none)
        | _, _ => (b1, some .indexError)
    | some _ => (b, some (.datasetError "Can not add multiple gyro sources"))

/-- DatasetBuilder.set_orientation_source. -/
def DatasetBuilder.set_orientation_source (b : DatasetBuilder) (source : String) :
    DatasetBuilder × Option PyError :=
  if source ∈ SOURCES then ({ b with _orientation_source := some source }, none)
  else (b, some (.datasetError ("No such source type: " ++ source)))

/-- DatasetBuilder.set_position_source. -/
def DatasetBuilder.set_position_source (b : DatasetBuilder) (source : String) :
    DatasetBuilder × Option PyError :=
  if source ∈ SOURCES then ({ b with _position_source := some source }, none)
  else (b, some (.datasetError ("No such source type: " ++ source)))

/-- DatasetBuilder.set_landmark_source. -/
def DatasetBuilder.set_landmark_source (b : DatasetBuilder) (source : String) :
    DatasetBuilder × Option PyError :=
  if source ∈ LANDMARK_SOURCES then ({ b with _landmark_source := some source }, none)
  else (b, some (.datasetError ("No such source type: " ++ source)))

/-- DatasetBuilder._can_build. -/
def DatasetBuilder._can_build (b : DatasetBuilder) : Bool :=
  b._landmark_source.isSome && b._orientation_source.isSome && b._position_source.isSome

/-- DatasetBuilder._nvm_aligned_imu_orientations: anchor at the first camera
whose mapped time is at or after the first gyro timestamp, start integrating
at the gyro sample nearest to that camera time from the conjugate of that
camera orientation, and sign-flip the vector part of the result. -/
def DatasetBuilder._nvm_aligned_imu_orientations (ext : Ext) (b : DatasetBuilder) :
    Except PyError (List Quat × List ℚ) :=
  match b._nvm_model with
  | none => .error .attributeError
  | some model =>
      match b._nvm_camera_fps with
      | none => .error .typeError
      | some fps =>
          if fps = 0 then .error .zeroDivisionError
          else
            let cameras := sortCameras model.cameras
            let cam_times := cameras.map fun c => (c.framenumber : ℚ) / fps
            match b._gyro_times with
            | none => .error .typeError
            | some gyro_times =>
                match pyGet gyro_times 0 with
                | none => .error .indexError
                | some g0 =>
                    match firstIdx (fun s => g0 ≤ s) cam_times with
                    | none => .error .indexError
                    | some cam_idx =>
                        match cameras.get? cam_idx, cam_times.get? cam_idx with
                        | some cam_ref, some t_ref =>
                            let gstart_idx := npArgmin (gyro_times.map fun x => |x - t_ref|)
                            let q_initial := cam_ref.orientation.conjugate
                            match b._gyro_data with
                            | none => .error .typeError
                            | some gd =>
                                let gyro_part := gd.rows.drop gstart_idx
                                let gyro_part_times := gyro_times.drop gstart_idx
                                match pyGet gyro_part_times 1, pyGet gyro_part_times 0 with
                                | some ta, some tb =>
                                    let dt := ta - tb
                                    let q := ext.integrate gyro_part dt (some q_initial)
                                    .ok (q.map Quat.conjugate, gyro_part_times)
                                | _, _ => .error .indexError
                        | _, _ => .error .indexError

/-- DatasetBuilder.build. -/
def DatasetBuilder.build (ext : Ext) (b : DatasetBuilder) : Except PyError Dataset :=
  if ¬ b._can_build then .error (.datasetError "Must select all sources")
  else if ¬ (b._landmark_source = some "nvm") then
    .error (.datasetError "Only landmarks from NVM is supported")
  else
    match Dataset.init.landmarks_from_nvm b._nvm_model with
    | (_, some e) => .error e
    | (ds1, none) =>
        if b._orientation_source = some "nvm" ∧ b._position_source = some "nvm" ∧
            b._landmark_source = some "nvm" then
          match ds1.orientation_from_nvm ext b._nvm_model none b._nvm_camera_fps with
          | (_, some e) => .error e
          | (ds2, none) =>
              match ds2.position_from_nvm b._nvm_model none b._nvm_camera_fps with
              | (_, some e) => .error e
              | (ds3, none) => .ok ds3
        else
          match
            (if b._orientation_source = some "imu" then
              match b._nvm_aligned_imu_orientations ext with
              | .error e => .error e
              | .ok (orientations, timestamps) =>
                  match ds1.orientation_from_gyro ext ⟨orientations.map quatToList, 4⟩ timestamps with
                  | (_, some e) => .error e
                  | (ds2, none) => .ok ds2
            else .ok ds1 : Except PyError Dataset) with
          | .error e => .error e
          | .ok ds2 =>
              match ds2.position_from_nvm b._nvm_model none b._nvm_camera_fps with
              | (_, some e) => .error e
              | (ds3, none) => .ok ds3

/-! Concrete instances used in closed statements and witnesses. -/

/-- Trivial instantiation of the external primitives, used to evaluate the
embedded code on concrete inputs. -/
def ext0 : Ext := ⟨fun q0 _ _ => q0, fun _ _ _ => [], id, fun _ => rfl⟩

/-- Identity quaternion. -/
def qOne : Quat := ⟨1, 0, 0, 0⟩

/-- Reconstruction model with a single camera at frame 0 and no points. -/
def model1 : NvmModel := ⟨[⟨0, ⟨0, 0, 0⟩, qOne⟩], []⟩

/-- A concrete (3,3) gyro sample matrix. -/
def mat33 : Mat := ⟨[[1, 0, 0], [0, 1, 0], [0, 0, 1]], 3⟩

/-- Uniform spacing of a timestamp list with common difference d. -/
def evenSpaced (ts : List ℚ) (d : ℚ) : Prop :=
  ∀ k, k + 1 < ts.length → ts.getD (k + 1) 0 - ts.getD k 0 = d

/-- Reconstruction model with cameras at the non-uniformly spaced frames
0, 1 and 3 and no points. -/
def model4 : NvmModel :=
  ⟨[⟨0, ⟨0, 0, 0⟩, qOne⟩, ⟨1, ⟨0, 0, 0⟩, qOne⟩, ⟨3, ⟨0, 0, 0⟩, qOne⟩], []⟩

/-- Builder holding model4 at frame rate 1 with all three selectors nvm. -/
def b4 : DatasetBuilder :=
  ⟨some model4, some 1, none, none, none, some "nvm", some "nvm", some "nvm"⟩

/-- The mapped camera times of a reconstruction at a fixed frame rate, in
ascending frame order (the `camera_times` array of the ingestion methods). -/
def camTimesOf (model : NvmModel) (fps : ℚ) : List ℚ :=
  (sortCameras model.cameras).map fun c => (c.framenumber : ℚ) / fps

/-- Selector-field invariant of the builder: every set selector value lies in
the fixed vocabulary of its slot. -/
def SelectorInv (b : DatasetBuilder) : Prop :=
  (∀ s, b._orientation_source = some s → s ∈ SOURCES) ∧
  (∀ s, b._position_source = some s → s ∈ SOURCES) ∧
  (∀ s, b._landmark_source = some s → s ∈ LANDMARK_SOURCES)

/-! Helper lemmas about the numpy/Python primitives. -/

/-- Nonnegative Python index is plain list lookup. -/
theorem pyGet_ofNat (xs : List α) (n : ℕ) : pyGet xs (n : ℤ) = xs.get? n := by
  simp [pyGet]

/-- A Python index of `-1` reads the last element of a nonempty list. -/
theorem pyGet_neg_one (xs : List α) (h : xs ≠ []) : pyGet xs (-1) = some (xs.getLast h) := by
  have hlen : 1 ≤ xs.length := List.length_pos.mpr h
  have h0 : ¬ (0 : ℤ) ≤ -1 := by decide
  have h1 : (0 : ℤ) ≤ (xs.length : ℤ) + (-1) := by omega
  have h2 : ((xs.length : ℤ) + (-1)).toNat = xs.length - 1 := by omega
  simp only [pyGet, h0, if_false, h1, if_true, h2]
  rw [List.getLast_eq_get]
  exact List.get?_eq_get _

/-- A Python index of 1 into a list with fewer than two elements fails. -/
theorem pyGet_one_short (xs : List α) (h : xs.length < 2) : pyGet xs (1 : ℤ) = none := by
  rw [show (1 : ℤ) = ((1 : ℕ) : ℤ) from rfl, pyGet_ofNat]
  exact List.get?_eq_none.mpr (by omega)

theorem firstIdx_spec (p : ℚ → Prop) [DecidablePred p] :
    ∀ (l : List ℚ) (i : ℕ), firstIdx p l = some i →
      i < l.length ∧ p (l.getD i 0) ∧ ∀ j, j < i → ¬ p (l.getD j 0)
  | [], i => by simp [firstIdx]
  | x :: xs, i => by
    intro h
    by_cases hp : p x
    · simp [firstIdx, hp] at h
      subst h
      simpa using hp
    · simp [firstIdx, hp] at h
      obtain ⟨i', hi', rfl⟩ := h
      obtain ⟨hlt, hpi, hbefore⟩ := firstIdx_spec p xs i' hi'
      refine ⟨by simpa using hlt, by simpa using hpi, ?_⟩
      intro j hj
      cases j with
      | zero => simpa using hp
      | succ j' => simpa using hbefore j' (by omega)

theorem firstIdx_of (p : ℚ → Prop) [DecidablePred p] :
    ∀ (l : List ℚ) (k : ℕ), k < l.length → p (l.getD k 0) →
      (∀ j, j < k → ¬ p (l.getD j 0)) → firstIdx p l = some k
  | [], k => by simp
  | x :: xs, k => by
    intro hk hpk hbefore
    cases k with
    | zero =>
        simp only [List.getD_cons_zero] at hpk
        simp [firstIdx, hpk]
    | succ k' =>
        have hx : ¬ p x := by simpa using hbefore 0 (Nat.succ_pos _)
        have := firstIdx_of p xs k' (by simpa using hk) (by simpa using hpk)
          (fun j hj => by simpa using hbefore (j + 1) (by omega))
        simp [firstIdx, hx, this]

/-- If no element satisfies the predicate, the first-index lookup fails. -/
theorem firstIdx_none_iff (p : ℚ → Prop) [DecidablePred p] (l : List ℚ) :
    firstIdx p l = none ↔ ∀ x ∈ l, ¬ p x := by
  induction l with
  | nil => simp [firstIdx]
  | cons x xs ih =>
      by_cases hp : p x
      · simp [firstIdx, hp]
      · simp [firstIdx, hp, ih]

/-! Claim C1: the time-mapping guard of position/orientation ingestion. -/

/-- C1 (code bug evidence): the guard of `position_from_nvm` and
`orientation_from_nvm` compares `nvm_model is None` with
`frame_to_time_func is None` instead of `camera_fps is None`.  With a model
present, supplying only the frame-to-time function (exactly one mapping)
already raises the configuration DatasetError, supplying neither raises no
DatasetError (a TypeError surfaces later when the fps-division lambda runs),
supplying both raises the DatasetError, and supplying only the frame rate
succeeds. -/
theorem c1_time_mapping_guard_misfires :
    (Dataset.init.position_from_nvm (some model1) (some fun n => (n : ℚ) / 30) none).2 =
      some (.datasetError "Must specify frame_to_time_func OR camera_fps, not both or none of them") ∧
    (Dataset.init.orientation_from_nvm ext0 (some model1) (some fun n => (n : ℚ) / 30) none).2 =
      some (.datasetError "Must specify frame_to_time_func OR camera_fps, not both or none of them") ∧
    (Dataset.init.position_from_nvm (some model1) none none).2 = some .typeError ∧
    (Dataset.init.orientation_from_nvm ext0 (some model1) none none).2 = some .typeError ∧
    (Dataset.init.position_from_nvm (some model1) (some fun n => (n : ℚ) / 30) (some 30)).2 =
      some (.datasetError "Must specify frame_to_time_func OR camera_fps, not both or none of them") ∧
    (Dataset.init.position_from_nvm (some model1) none (some 30)).2 = none := by
  refine ⟨rfl, rfl, rfl, rfl, rfl, ?_⟩
  simp [Dataset.position_from_nvm, model1, sortCameras, List.insertionSort, List.orderedInsert,
    cameraTimesLoop, frameTime, Dataset._update_trajectory]

/-! Claim C8: landmark ingestion is additive and touches nothing else. -/

/-- C8: `landmarks_from_nvm` appends exactly one landmark per reconstruction
point, in source order, to the existing list (a second call appends again),
and leaves the position series, the orientation series and the trajectory
unchanged. -/
theorem c8_landmarks_append (ds : Dataset) (m : NvmModel) :
    (ds.landmarks_from_nvm (some m)).2 = none ∧
    (ds.landmarks_from_nvm (some m)).1.landmarks =
      ds.landmarks ++ m.points.map (fun p => ⟨p.position⟩) ∧
    (ds.landmarks_from_nvm (some m)).1.landmarks.length =
      ds.landmarks.length + m.points.length ∧
    (ds.landmarks_from_nvm (some m)).1._position_data = ds._position_data ∧
    (ds.landmarks_from_nvm (some m)).1._orientation_data = ds._orientation_data ∧
    (ds.landmarks_from_nvm (some m)).1.trajectory = ds.trajectory ∧
    ((ds.landmarks_from_nvm (some m)).1.landmarks_from_nvm (some m)).1.landmarks =
      ds.landmarks ++ m.points.map (fun p => ⟨p.position⟩) ++
        m.points.map (fun p => ⟨p.position⟩) := by
  simp [Dataset.landmarks_from_nvm]

/-! Claim C9: build with no reconstruction source added. -/

/-- C9: when all three selectors are set (landmark selector nvm) but no NVM
source was ever added, `build` passes the absent model into landmark
ingestion and fails with an attribute access error, not with a DatasetError. -/
theorem c9_build_missing_nvm (ext : Ext) (b : DatasetBuilder)
    (hm : b._nvm_model = none) (hl : b._landmark_source = some "nvm")
    (ho : b._orientation_source.isSome = true) (hp : b._position_source.isSome = true) :
    b.build ext = .error .attributeError := by
  simp [DatasetBuilder.build, DatasetBuilder._can_build, hm, hl, ho, hp,
    Dataset.landmarks_from_nvm]

/-- C9 witness: a concrete builder with selectors imu/nvm/nvm and no NVM
source fails with the attribute error. -/
theorem c9_build_missing_nvm_witness :
    DatasetBuilder.build ext0 ⟨none, none, none, none, none, some "imu", some "nvm", some "nvm"⟩ =
      .error .attributeError :=
  c9_build_missing_nvm ext0 _ rfl rfl rfl rfl

/-! Claim C10: 3-wide gyro input with fewer than two samples. -/

/-- C10: for (n,3) gyro data with matching timestamp count and n below two,
both `add_source_gyro` and `orientation_from_gyro` fail with an index error
when reading the second timestamp for the sample interval, not with a
DatasetError. -/
theorem c10_short_gyro_index_error (ext : Ext) (b : DatasetBuilder) (ds : Dataset)
    (gd : Mat) (gts : List ℚ) (hc : gd.cols = 3) (hlen : gd.rows.length = gts.length)
    (hn : gts.length < 2) (hfresh : b._gyro_data = none) :
    (b.add_source_gyro ext gd gts).2 = some .indexError ∧
    (ds.orientation_from_gyro ext gd gts).2 = some .indexError := by
  have h1 : pyGet gts (1 : ℤ) = none := pyGet_one_short gts hn
  constructor
  · simp [DatasetBuilder.add_source_gyro, hc, hlen, hfresh, h1]
  · simp [Dataset.orientation_from_gyro, hc, h1]

/-- C10 witness: a single (1,3) gyro sample triggers the index error in both
entry points. -/
theorem c10_short_gyro_index_error_witness :
    (DatasetBuilder.init.add_source_gyro ext0 ⟨[[1, 2, 3]], 3⟩ [0]).2 = some .indexError ∧
    (Dataset.init.orientation_from_gyro ext0 ⟨[[1, 2, 3]], 3⟩ [0]).2 = some .indexError :=
  c10_short_gyro_index_error ext0 DatasetBuilder.init Dataset.init ⟨[[1, 2, 3]], 3⟩ [0]
    rfl rfl (by decide) rfl

/-! Claim C2: non-uniform gyro timestamps in add_source_gyro. -/

/-- Timestamps 0, 0.01, 0.03 are not uniformly spaced in the allclose sense. -/
theorem nonuniform_example : ¬ npAllclose (npDiff [0, 1/100, 3/100]) ((1:ℚ)/100 - 0) := by
  intro h
  have h2 := h (1/50) (by norm_num [npDiff])
  rw [npIsclose, abs_of_nonneg (by norm_num : (0:ℚ) ≤ 1/50 - (1/100 - 0)),
    abs_of_nonneg (by norm_num : (0:ℚ) ≤ 1/100 - 0)] at h2
  norm_num at h2

/-- Shared computation: on a fresh builder, a shape-correct but non-uniform
gyro source is stored and then the uniformity DatasetError is raised. -/
theorem add_source_gyro_nonuniform_eq (ext : Ext) (b : DatasetBuilder)
    (gd : Mat) (gts : List ℚ) (ta tb : ℚ)
    (hfresh : b._gyro_data = none) (hc : gd.cols = 3) (hlen : gd.rows.length = gts.length)
    (hta : pyGet gts (1 : ℤ) = some ta) (htb : pyGet gts (0 : ℤ) = some tb)
    (hnonuni : ¬ npAllclose (npDiff gts) (ta - tb)) :
    b.add_source_gyro ext gd gts =
      ({ b with _gyro_data := some gd, _gyro_times := some gts },
        some (.datasetError "Gyro samples must be uniformly sampled")) := by
  simp [DatasetBuilder.add_source_gyro, hc, hlen, hfresh, hta, htb, hnonuni]

/-- C2 counterexample: adding a (3,3) gyro source with the non-uniform
timestamps 0, 0.01, 0.03 raises the uniformity DatasetError, but the raw
data and timestamps are already stored on the builder, so a later valid
`add_source_gyro` call fails with the duplicate-source DatasetError instead
of succeeding. -/
theorem c2_failed_add_mutates_builder :
    (DatasetBuilder.init.add_source_gyro ext0 mat33 [0, 1/100, 3/100]).2 =
      some (.datasetError "Gyro samples must be uniformly sampled") ∧
    (DatasetBuilder.init.add_source_gyro ext0 mat33 [0, 1/100, 3/100]).1._gyro_data =
      some mat33 ∧
    (DatasetBuilder.init.add_source_gyro ext0 mat33 [0, 1/100, 3/100]).1._gyro_times =
      some [0, 1/100, 3/100] ∧
    ((DatasetBuilder.init.add_source_gyro ext0 mat33 [0, 1/100, 3/100]).1.add_source_gyro
        ext0 mat33 [0, 1/100, 2/100]).2 =
      some (.datasetError "Can not add multiple gyro sources") := by
  have e1 := add_source_gyro_nonuniform_eq ext0 DatasetBuilder.init mat33 [0, 1/100, 3/100]
    (1/100) 0 rfl rfl rfl rfl rfl nonuniform_example
  refine ⟨by rw [e1], by rw [e1], by rw [e1], ?_⟩
  rw [e1]
  simp [DatasetBuilder.add_source_gyro, mat33]

/-- C2 amended: a non-uniform (N,3) gyro source on a fresh builder raises the
uniformity DatasetError before any integration (the integrated-orientation
cache stays unset), but the raw gyro data and timestamps have already been
stored, so every later `add_source_gyro` call on the same builder fails. -/
theorem c2_nonuniform_gyro_rejected_after_store (ext : Ext) (b : DatasetBuilder)
    (gd : Mat) (gts : List ℚ) (ta tb : ℚ)
    (hfresh : b._gyro_data = none) (hc : gd.cols = 3) (hlen : gd.rows.length = gts.length)
    (hta : pyGet gts (1 : ℤ) = some ta) (htb : pyGet gts (0 : ℤ) = some tb)
    (hnonuni : ¬ npAllclose (npDiff gts) (ta - tb)) :
    b.add_source_gyro ext gd gts =
      ({ b with _gyro_data := some gd, _gyro_times := some gts },
        some (.datasetError "Gyro samples must be uniformly sampled")) ∧
    (b.add_source_gyro ext gd gts).1._gyro_quat = b._gyro_quat ∧
    ∀ gd2 gts2, ((b.add_source_gyro ext gd gts).1.add_source_gyro ext gd2 gts2).2.isSome := by
  have hmain := add_source_gyro_nonuniform_eq ext b gd gts ta tb hfresh hc hlen hta htb hnonuni
  refine ⟨hmain, by rw [hmain], ?_⟩
  intro gd2 gts2
  rw [hmain]
  by_cases hl2 : gd2.rows.length = gts2.length
  · by_cases hc2 : gd2.cols = 3
    · simp [DatasetBuilder.add_source_gyro, hl2, hc2]
    · simp [DatasetBuilder.add_source_gyro, hl2, hc2]
  · simp [DatasetBuilder.add_source_gyro, hl2]

/-- C2 witness for the amended statement, at the concrete non-uniform input. -/
theorem c2_nonuniform_gyro_rejected_after_store_witness :
    DatasetBuilder.init.add_source_gyro ext0 mat33 [0, 1/100, 3/100] =
      ({ DatasetBuilder.init with _gyro_data := some mat33, _gyro_times := some [0, 1/100, 3/100] },
        some (.datasetError "Gyro samples must be uniformly sampled")) ∧
    (DatasetBuilder.init.add_source_gyro ext0 mat33 [0, 1/100, 3/100]).1._gyro_quat =
      DatasetBuilder.init._gyro_quat ∧
    ∀ gd2 gts2, ((DatasetBuilder.init.add_source_gyro ext0 mat33
        [0, 1/100, 3/100]).1.add_source_gyro ext0 gd2 gts2).2.isSome :=
  c2_nonuniform_gyro_rejected_after_store ext0 DatasetBuilder.init mat33 [0, 1/100, 3/100]
    (1/100) 0 rfl rfl rfl rfl rfl nonuniform_example

/-! Claim C7: selector vocabulary enforced at set-time; invariant preserved. -/

/-- A builder whose selector projections agree with another satisfies the
selector invariant whenever the other does. -/
theorem SelectorInv_of_eq (b b' : DatasetBuilder)
    (h1 : b'._orientation_source = b._orientation_source)
    (h2 : b'._position_source = b._position_source)
    (h3 : b'._landmark_source = b._landmark_source)
    (hinv : SelectorInv b) : SelectorInv b' := by
  unfold SelectorInv at hinv ⊢
  rw [h1, h2, h3]
  exact hinv

/-- add_source_gyro never touches the three selector fields, in any branch. -/
theorem add_source_gyro_preserves_selectors (ext : Ext) (b : DatasetBuilder)
    (gd : Mat) (gts : List ℚ) :
    (b.add_source_gyro ext gd gts).1._orientation_source = b._orientation_source ∧
    (b.add_source_gyro ext gd gts).1._position_source = b._position_source ∧
    (b.add_source_gyro ext gd gts).1._landmark_source = b._landmark_source := by
  unfold DatasetBuilder.add_source_gyro
  refine ⟨?_, ?_, ?_⟩ <;> (dsimp only; repeat' split) <;> rfl

/-- C7: the three selector setters store a value exactly when it belongs to
the vocabulary of their slot and otherwise raise a DatasetError leaving the
builder unchanged; and every builder operation preserves the invariant that
each set selector lies in its vocabulary. -/
theorem c7_selector_vocabulary_invariant (ext : Ext) (b : DatasetBuilder) (s : String)
    (m : NvmModel) (fps : ℚ) (gd : Mat) (gts : List ℚ) (hinv : SelectorInv b) :
    (s ∈ SOURCES →
      b.set_orientation_source s = ({ b with _orientation_source := some s }, none) ∧
      b.set_position_source s = ({ b with _position_source := some s }, none)) ∧
    (s ∈ LANDMARK_SOURCES →
      b.set_landmark_source s = ({ b with _landmark_source := some s }, none)) ∧
    (s ∉ SOURCES →
      b.set_orientation_source s = (b, some (.datasetError ("No such source type: " ++ s))) ∧
      b.set_position_source s = (b, some (.datasetError ("No such source type: " ++ s)))) ∧
    (s ∉ LANDMARK_SOURCES →
      b.set_landmark_source s = (b, some (.datasetError ("No such source type: " ++ s)))) ∧
    SelectorInv (b.set_orientation_source s).1 ∧
    SelectorInv (b.set_position_source s).1 ∧
    SelectorInv (b.set_landmark_source s).1 ∧
    SelectorInv (b.add_source_nvm m fps).1 ∧
    SelectorInv (b.add_source_gyro ext gd gts).1 := by
  obtain ⟨ho, hp, hl⟩ := hinv
  refine ⟨?_, ?_, ?_, ?_, ?_, ?_, ?_, ?_, ?_⟩
  · intro hs
    constructor <;> simp [DatasetBuilder.set_orientation_source,
      DatasetBuilder.set_position_source, hs]
  · intro hs
    simp [DatasetBuilder.set_landmark_source, hs]
  · intro hs
    constructor <;> simp [DatasetBuilder.set_orientation_source,
      DatasetBuilder.set_position_source, hs]
  · intro hs
    simp [DatasetBuilder.set_landmark_source, hs]
  · by_cases hs : s ∈ SOURCES
    · simp only [DatasetBuilder.set_orientation_source, hs, if_true]
      exact ⟨fun s' h' => by simp at h'; subst h'; exact hs, hp, hl⟩
    · simp only [DatasetBuilder.set_orientation_source, hs, if_false]
      exact ⟨ho, hp, hl⟩
  · by_cases hs : s ∈ SOURCES
    · simp only [DatasetBuilder.set_position_source, hs, if_true]
      exact ⟨ho, fun s' h' => by simp at h'; subst h'; exact hs, hl⟩
    · simp only [DatasetBuilder.set_position_source, hs, if_false]
      exact ⟨ho, hp, hl⟩
  · by_cases hs : s ∈ LANDMARK_SOURCES
    · simp only [DatasetBuilder.set_landmark_source, hs, if_true]
      exact ⟨ho, hp, fun s' h' => by simp at h'; subst h'; exact hs⟩
    · simp only [DatasetBuilder.set_landmark_source, hs, if_false]
      exact ⟨ho, hp, hl⟩
  · cases hm : b._nvm_model <;> simp only [DatasetBuilder.add_source_nvm, hm] <;>
      exact ⟨ho, hp, hl⟩
  · obtain ⟨e1, e2, e3⟩ := add_source_gyro_preserves_selectors ext b gd gts
    exact SelectorInv_of_eq b _ e1 e2 e3 ⟨ho, hp, hl⟩

/-- C7 witness at a concrete builder and selector values. -/
theorem c7_selector_vocabulary_invariant_witness :
    ("imu" ∈ SOURCES →
      DatasetBuilder.init.set_orientation_source "imu" =
        ({ DatasetBuilder.init with _orientation_source := some "imu" }, none) ∧
      DatasetBuilder.init.set_position_source "imu" =
        ({ DatasetBuilder.init with _position_source := some "imu" }, none)) ∧
    ("imu" ∈ LANDMARK_SOURCES →
      DatasetBuilder.init.set_landmark_source "imu" =
        ({ DatasetBuilder.init with _landmark_source := some "imu" }, none)) ∧
    ("imu" ∉ SOURCES →
      DatasetBuilder.init.set_orientation_source "imu" =
        (DatasetBuilder.init, some (.datasetError ("No such source type: " ++ "imu"))) ∧
      DatasetBuilder.init.set_position_source "imu" =
        (DatasetBuilder.init, some (.datasetError ("No such source type: " ++ "imu")))) ∧
    ("imu" ∉ LANDMARK_SOURCES →
      DatasetBuilder.init.set_landmark_source "imu" =
        (DatasetBuilder.init, some (.datasetError ("No such source type: " ++ "imu")))) ∧
    SelectorInv (DatasetBuilder.init.set_orientation_source "imu").1 ∧
    SelectorInv (DatasetBuilder.init.set_position_source "imu").1 ∧
    SelectorInv (DatasetBuilder.init.set_landmark_source "imu").1 ∧
    SelectorInv (DatasetBuilder.init.add_source_nvm model1 30).1 ∧
    SelectorInv (DatasetBuilder.init.add_source_gyro ext0 mat33 [0, 1/100, 2/100]).1 :=
  c7_selector_vocabulary_invariant ext0 DatasetBuilder.init "imu" model1 30 mat33
    [0, 1/100, 2/100] (by simp [SelectorInv, DatasetBuilder.init])

/-! Claim C3: quaternion_array_interpolate range behavior. -/

/-- Indexing below the length with a natural number index succeeds. -/
theorem pyGet_eq_getD (l : List α) (i : ℕ) (d : α) (h : i < l.length) :
    pyGet l (i : ℤ) = some (l.getD i d) := by
  rw [pyGet_ofNat, List.getD_eq_get _ _ h]
  exact List.get?_eq_get h

/-- In a strictly increasing list, earlier entries are smaller. -/
theorem sorted_getD_lt (l : List ℚ) (h : l.Pairwise (· < ·)) (i j : ℕ)
    (hij : i < j) (hj : j < l.length) :
    l.getD i 0 < l.getD j 0 := by
  have hi : i < l.length := lt_trans hij hj
  rw [List.getD_eq_get _ _ hi, List.getD_eq_get _ _ hj]
  exact List.pairwise_iff_get.mp h ⟨i, hi⟩ ⟨j, hj⟩ hij

/-- Every member of a strictly increasing list is at most its last element. -/
theorem mem_le_getLast_of_sorted (l : List ℚ) (h : l.Pairwise (· < ·)) (hne : l ≠ [])
    (x : ℚ) (hx : x ∈ l) : x ≤ l.getLast hne := by
  obtain ⟨⟨i, hi⟩, rfl⟩ := List.mem_iff_get.mp hx
  rw [List.getLast_eq_get]
  rcases Nat.lt_or_ge i (l.length - 1) with hlt | hge
  · exact le_of_lt (List.pairwise_iff_get.mp h ⟨i, hi⟩ ⟨l.length - 1, by omega⟩ hlt)
  · have : i = l.length - 1 := by omega
    subst this
    exact le_refl _

/-- The last element of a nonempty list, through getD at the final index. -/
theorem getLast_eq_getD (l : List ℚ) (hne : l ≠ []) :
    l.getLast hne = l.getD (l.length - 1) 0 := by
  rw [List.getLast_eq_get, List.getD_eq_get _ _ (by
    have := List.length_pos.mpr hne
    omega)]

/-- C3 counterexample: a query time before the first timestamp does not fail;
Python wrap-around indexing makes the lookup return the slerp between the
last and first samples (here evaluating to the first sample). -/
theorem c3_before_first_no_error :
    quaternion_array_interpolate ext0 [qOne, qOne, qOne] [0, 1, 2] (-1) = .ok qOne ∧
    ∀ e, quaternion_array_interpolate ext0 [qOne, qOne, qOne] [0, 1, 2] (-1) ≠ .error e := by
  have h1 : quaternion_array_interpolate ext0 [qOne, qOne, qOne] [0, 1, 2] (-1) = .ok qOne := by
    norm_num [quaternion_array_interpolate, firstIdx, pyGet, quaternion_slerp, ext0]
    rfl
  refine ⟨h1, fun e he => ?_⟩
  rw [h1] at he
  exact Except.noConfusion he

/-- C3 amended: with strictly increasing timestamps, the interpolation fails
with the out-of-range IndexError exactly when the query time is at or after
the last timestamp.  Strictly inside the range it returns the slerp of the
bracketing samples at the clamped time ratio, as claimed; but before the
first timestamp it does not fail: wrap-around indexing slerps from the last
sample to the first with the ratio clamped to 1. -/
theorem c3_interpolate_range_behavior (ext : Ext) (qa : List Quat) (qtimes : List ℚ) (t : ℚ)
    (hlen : qa.length = qtimes.length) (hne : qtimes ≠ [])
    (hsorted : qtimes.Pairwise (· < ·)) :
    (qtimes.getLast hne ≤ t →
      quaternion_array_interpolate ext qa qtimes t = .error .indexError) ∧
    (qtimes.getD 0 0 ≤ t → t < qtimes.getLast hne →
      ∃ i, 0 < i ∧ i < qtimes.length ∧
        qtimes.getD (i - 1) 0 ≤ t ∧ t < qtimes.getD i 0 ∧
        quaternion_array_interpolate ext qa qtimes t =
          .ok (ext.slerp (qa.getD (i - 1) default) (qa.getD i default)
            (npClip ((t - qtimes.getD (i - 1) 0) /
              (qtimes.getD i 0 - qtimes.getD (i - 1) 0)) 0 1))) ∧
    (t < qtimes.getD 0 0 → 2 ≤ qtimes.length → ∀ hqa : qa ≠ [],
      quaternion_array_interpolate ext qa qtimes t =
        .ok (ext.slerp (qa.getLast hqa) (qa.getD 0 default) 1)) := by
  refine ⟨?_, ?_, ?_⟩
  · intro hge
    have hnone : firstIdx (fun s => t < s) qtimes = none := by
      rw [firstIdx_none_iff]
      intro x hx
      have := mem_le_getLast_of_sorted qtimes hsorted hne x hx
      intro hlt
      exact absurd (lt_of_le_of_lt hge hlt) (not_lt.mpr this)
    rw [quaternion_array_interpolate, hnone]
  · intro hhead hlast
    have hsome : (firstIdx (fun s => t < s) qtimes).isSome := by
      rcases hfi : firstIdx (fun s => t < s) qtimes with _ | i
      · rw [firstIdx_none_iff] at hfi
        exact absurd hlast (hfi _ (List.getLast_mem hne))
      · rfl
    rcases hfi : firstIdx (fun s => t < s) qtimes with _ | i
    · rw [hfi] at hsome; exact absurd hsome (by simp)
    obtain ⟨hilen, hpi, hbefore⟩ := firstIdx_spec _ qtimes i hfi
    have hipos : 0 < i := by
      rcases Nat.eq_zero_or_pos i with h0 | h0
      · subst h0
        exact absurd hpi (not_lt.mpr hhead)
      · exact h0
    have hbr : ¬ t < qtimes.getD (i - 1) 0 := hbefore (i - 1) (by omega)
    refine ⟨i, hipos, hilen, not_lt.mp hbr, hpi, ?_⟩
    have hcast : (i : ℤ) - 1 = ((i - 1 : ℕ) : ℤ) := by omega
    have hq0 : pyGet qa ((i : ℤ) - 1) = some (qa.getD (i - 1) default) := by
      rw [hcast]; exact pyGet_eq_getD qa (i - 1) default (by omega)
    have hq1 : pyGet qa (i : ℤ) = some (qa.getD i default) :=
      pyGet_eq_getD qa i default (by omega)
    have ht0 : pyGet qtimes ((i : ℤ) - 1) = some (qtimes.getD (i - 1) 0) := by
      rw [hcast]; exact pyGet_eq_getD qtimes (i - 1) 0 (by omega)
    have ht1 : pyGet qtimes (i : ℤ) = some (qtimes.getD i 0) :=
      pyGet_eq_getD qtimes i 0 hilen
    simp only [quaternion_array_interpolate, hfi, hq0, hq1, ht0, ht1, quaternion_slerp]
  · intro hbefore hlen2 hqa
    rcases hq : qtimes with _ | ⟨t0, rest⟩
    · exact absurd hq hne
    subst hq
    have hcond : t < t0 := by simpa using hbefore
    have hfi : firstIdx (fun s => t < s) (t0 :: rest) = some 0 := by
      simp [firstIdx, hcond]
    have h0qa : (0 : ℕ) < qa.length := by
      rw [hlen]; simp
    have hq1 : pyGet qa ((0 : ℤ)) = some (qa.getD 0 default) := pyGet_eq_getD qa 0 default h0qa
    have hqm1 : pyGet qa ((0 : ℤ) - 1) = some (qa.getLast hqa) := by
      rw [show (0 : ℤ) - 1 = -1 by ring]; exact pyGet_neg_one qa hqa
    have htm1 : pyGet (t0 :: rest) ((0 : ℤ) - 1) = some ((t0 :: rest).getLast hne) := by
      rw [show (0 : ℤ) - 1 = -1 by ring]; exact pyGet_neg_one _ hne
    have ht1 : pyGet (t0 :: rest) ((0 : ℤ)) = some ((t0 :: rest).getD 0 0) :=
      pyGet_eq_getD _ 0 0 (by simp)
    have hheadlt : t0 < (t0 :: rest).getLast hne := by
      have := sorted_getD_lt (t0 :: rest) hsorted 0 ((t0 :: rest).length - 1)
        (by simpa using hlen2) (by simp)
      rw [getLast_eq_getD]
      simpa using this
    have hclip : npClip ((t - (t0 :: rest).getLast hne) /
        (t0 - (t0 :: rest).getLast hne)) 0 1 = 1 := by
      have hheadlt2 : t0 < (t0 :: rest).getLast hne := hheadlt
      have hdenom : t0 - (t0 :: rest).getLast hne < 0 := by linarith
      have hge1 : 1 ≤ (t - (t0 :: rest).getLast hne) / (t0 - (t0 :: rest).getLast hne) := by
        rw [le_div_iff_of_neg hdenom]
        linarith
      rw [npClip, min_eq_right hge1, max_eq_right (by norm_num : (0:ℚ) ≤ 1)]
    simp only [quaternion_array_interpolate, hfi, Nat.cast_zero, hqm1, hq1, htm1, ht1,
      quaternion_slerp, List.getD_cons_zero]
    rw [hclip]

/-- C3 witness for the amended statement at concrete inputs. -/
theorem c3_interpolate_range_behavior_witness :
    (([0, 1, 2] : List ℚ).getLast (by simp) ≤ (1/2 : ℚ) →
      quaternion_array_interpolate ext0 [qOne, qOne, qOne] [0, 1, 2] (1/2) =
        .error .indexError) ∧
    (([0, 1, 2] : List ℚ).getD 0 0 ≤ (1/2 : ℚ) →
      (1/2 : ℚ) < ([0, 1, 2] : List ℚ).getLast (by simp) →
      ∃ i, 0 < i ∧ i < ([0, 1, 2] : List ℚ).length ∧
        ([0, 1, 2] : List ℚ).getD (i - 1) 0 ≤ (1/2 : ℚ) ∧
        (1/2 : ℚ) < ([0, 1, 2] : List ℚ).getD i 0 ∧
        quaternion_array_interpolate ext0 [qOne, qOne, qOne] [0, 1, 2] (1/2) =
          .ok (ext0.slerp (([qOne, qOne, qOne] : List Quat).getD (i - 1) default)
            (([qOne, qOne, qOne] : List Quat).getD i default)
            (npClip (((1/2 : ℚ) - ([0, 1, 2] : List ℚ).getD (i - 1) 0) /
              (([0, 1, 2] : List ℚ).getD i 0 - ([0, 1, 2] : List ℚ).getD (i - 1) 0)) 0 1))) ∧
    ((1/2 : ℚ) < ([0, 1, 2] : List ℚ).getD 0 0 → 2 ≤ ([0, 1, 2] : List ℚ).length →
      ∀ hqa : ([qOne, qOne, qOne] : List Quat) ≠ [],
      quaternion_array_interpolate ext0 [qOne, qOne, qOne] [0, 1, 2] (1/2) =
        .ok (ext0.slerp (([qOne, qOne, qOne] : List Quat).getLast hqa)
          (([qOne, qOne, qOne] : List Quat).getD 0 default) 1)) :=
  c3_interpolate_range_behavior ext0 [qOne, qOne, qOne] [0, 1, 2] (1/2) rfl (by simp)
    (by norm_num [List.pairwise_cons])

/-! Claim C5: the gyro-to-reconstruction alignment algorithm. -/

/-- A successful nonnegative Python lookup determines the getD value. -/
theorem getD_of_pyGet (l : List α) (n : ℕ) (d a : α) (h : pyGet l (n : ℤ) = some a) :
    l.getD n d = a := by
  rw [pyGet_ofNat] at h
  rw [List.getD_eq_get?, h]
  rfl

/-- np.argmin returns an in-range index attaining the minimum value. -/
theorem npArgmin_spec : ∀ (l : List ℚ), l ≠ [] →
    npArgmin l < l.length ∧ ∀ j, j < l.length → l.getD (npArgmin l) 0 ≤ l.getD j 0
  | [], h => absurd rfl h
  | [x], _ => by
      refine ⟨by simp [npArgmin], ?_⟩
      intro j hj
      have : j = 0 := by simpa using Nat.lt_one_iff.mp (by simpa using hj)
      subst this
      simp [npArgmin]
  | x :: y :: rest, _ => by
      obtain ⟨ih1, ih2⟩ := npArgmin_spec (y :: rest) (by simp)
      by_cases hx : x ≤ (y :: rest).getD (npArgmin (y :: rest)) 0
      · have he : npArgmin (x :: y :: rest) = 0 := by
          simp only [npArgmin]
          rw [if_pos hx]
        rw [he]
        refine ⟨by simp, ?_⟩
        intro j hj
        cases j with
        | zero => simp
        | succ j' =>
            simp only [List.getD_cons_zero, List.getD_cons_succ]
            exact le_trans hx (ih2 j' (by simpa using hj))
      · have he : npArgmin (x :: y :: rest) = npArgmin (y :: rest) + 1 := by
          simp only [npArgmin]
          rw [if_neg hx]
        rw [he]
        refine ⟨by simpa using ih1, ?_⟩
        intro j hj
        cases j with
        | zero =>
            simp only [List.getD_cons_succ, List.getD_cons_zero]
            exact le_of_lt (lt_of_not_le hx)
        | succ j' =>
            simp only [List.getD_cons_succ]
            exact ih2 j' (by simpa using hj)

/-- C5: whenever the alignment step succeeds, the reference camera is the
first camera (in ascending frame order) whose mapped time is at or after the
first gyro timestamp; the integration start index is a gyro sample whose
timestamp minimises the absolute difference to the reference camera time;
the returned timestamps are the gyro timestamps truncated at that index; and
the returned orientations are the integrator output over the truncated
samples started from the conjugate of the reference camera orientation, with
the vector part of every resulting quaternion sign-flipped. -/
theorem c5_aligned_imu_orientations_spec (ext : Ext) (b : DatasetBuilder)
    (model : NvmModel) (fps : ℚ) (gd : Mat) (gts : List ℚ) (qs : List Quat) (times : List ℚ)
    (hm : b._nvm_model = some model) (hf : b._nvm_camera_fps = some fps)
    (hgt : b._gyro_times = some gts) (hgd : b._gyro_data = some gd)
    (hres : b._nvm_aligned_imu_orientations ext = .ok (qs, times)) :
    ∃ cam_idx gstart cam_ref,
      (sortCameras model.cameras).get? cam_idx = some cam_ref ∧
      gts.getD 0 0 ≤ (cam_ref.framenumber : ℚ) / fps ∧
      (∀ j, j < cam_idx →
        ((sortCameras model.cameras).map fun c => (c.framenumber : ℚ) / fps).getD j 0 <
          gts.getD 0 0) ∧
      gstart < gts.length ∧
      (∀ j, j < gts.length →
        |gts.getD gstart 0 - (cam_ref.framenumber : ℚ) / fps| ≤
          |gts.getD j 0 - (cam_ref.framenumber : ℚ) / fps|) ∧
      times = gts.drop gstart ∧
      qs = (ext.integrate (gd.rows.drop gstart) (times.getD 1 0 - times.getD 0 0)
          (some cam_ref.orientation.conjugate)).map
        (fun q => ⟨q.w, -q.x, -q.y, -q.z⟩) := by
  rw [DatasetBuilder._nvm_aligned_imu_orientations, hm, hf] at hres
  dsimp only at hres
  by_cases hfps : fps = 0
  · rw [if_pos hfps] at hres
    exact absurd hres (by simp)
  rw [if_neg hfps, hgt] at hres
  dsimp only at hres
  rcases hg0 : pyGet gts 0 with _ | g0
  · rw [hg0] at hres
    exact absurd hres (by simp)
  rw [hg0] at hres
  dsimp only at hres
  rcases hfi : firstIdx (fun s => g0 ≤ s)
      ((sortCameras model.cameras).map fun c => (c.framenumber : ℚ) / fps) with _ | cam_idx
  · rw [hfi] at hres
    exact absurd hres (by simp)
  rw [hfi] at hres
  dsimp only at hres
  obtain ⟨hlt, hpi, hbef⟩ := firstIdx_spec _ _ cam_idx hfi
  have hltc : cam_idx < (sortCameras model.cameras).length := by
    simpa using hlt
  rcases hcr : (sortCameras model.cameras).get? cam_idx with _ | cam_ref
  · exact absurd (List.get?_eq_none.mp hcr) (by omega)
  rw [hcr] at hres
  rcases htr : ((sortCameras model.cameras).map fun c => (c.framenumber : ℚ) / fps).get?
      cam_idx with _ | t_ref
  · exact absurd (List.get?_eq_none.mp htr)
      (by simpa using (by omega : ¬ (sortCameras model.cameras).length ≤ cam_idx))
  rw [htr] at hres
  dsimp only at hres
  rw [hgd] at hres
  dsimp only at hres
  rcases hp1 : pyGet (gts.drop (npArgmin (gts.map fun x => |x - t_ref|))) 1 with _ | ta
  · rw [hp1] at hres
    exact absurd hres (by simp)
  rw [hp1] at hres
  rcases hp0 : pyGet (gts.drop (npArgmin (gts.map fun x => |x - t_ref|))) 0 with _ | tb
  · rw [hp0] at hres
    exact absurd hres (by simp)
  rw [hp0] at hres
  dsimp only at hres
  simp only [Except.ok.injEq, Prod.mk.injEq] at hres
  obtain ⟨hqs, htimes⟩ := hres
  -- identify t_ref with the mapped time of the reference camera
  have htrv : t_ref = (cam_ref.framenumber : ℚ) / fps := by
    have := List.get?_map (fun c => (c.framenumber : ℚ) / fps) (sortCameras model.cameras) cam_idx
    rw [htr, hcr] at this
    simpa using this
  -- the gyro list is nonempty because index 0 was readable
  have hgne : gts ≠ [] := by
    intro hnil
    rw [hnil] at hg0
    simp [pyGet] at hg0
  obtain ⟨ha1, ha2⟩ := npArgmin_spec (gts.map fun x => |x - t_ref|) (by simpa using hgne)
  have halen : npArgmin (gts.map fun x => |x - t_ref|) < gts.length := by simpa using ha1
  have hg0v : gts.getD 0 0 = g0 := getD_of_pyGet gts 0 0 g0 hg0
  refine ⟨cam_idx, npArgmin (gts.map fun x => |x - t_ref|), cam_ref, hcr, ?_, ?_, halen, ?_, ?_, ?_⟩
  · rw [hg0v, ← htrv]
    have : ((sortCameras model.cameras).map fun c => (c.framenumber : ℚ) / fps).getD cam_idx 0 =
        t_ref := by
      rw [List.getD_eq_get?, htr]
      rfl
    rw [← this]
    exact hpi
  · intro j hj
    rw [hg0v]
    exact lt_of_not_le fun hcontra => hbef j hj hcontra
  · intro j hj
    have hmap : ∀ k, k < gts.length →
        (gts.map fun x => |x - t_ref|).getD k 0 = |gts.getD k 0 - t_ref| := by
      intro k hk
      rw [List.getD_eq_get?, List.get?_map, List.getD_eq_get?]
      rcases hk2 : gts.get? k with _ | v
      · exact absurd (List.get?_eq_none.mp hk2) (by omega)
      · rfl
    rw [← htrv, ← hmap _ halen, ← hmap j hj]
    exact ha2 j (by simpa using hj)
  · exact htimes.symm
  · rw [← hqs, ← htimes]
    have hta : (gts.drop (npArgmin (gts.map fun x => |x - t_ref|))).getD 1 0 = ta :=
      getD_of_pyGet _ 1 0 ta hp1
    have htb : (gts.drop (npArgmin (gts.map fun x => |x - t_ref|))).getD 0 0 = tb :=
      getD_of_pyGet _ 0 0 tb hp0
    rw [hta, htb]
    rfl

/-- C5 witness: a concrete builder on which the alignment succeeds. -/
theorem c5_aligned_imu_orientations_spec_witness :
    ∃ (qs : List Quat) (times : List ℚ) (cam_idx gstart : ℕ) (cam_ref : Camera),
      (sortCameras model1.cameras).get? cam_idx = some cam_ref ∧
      ([0, 1/100] : List ℚ).getD 0 0 ≤ (cam_ref.framenumber : ℚ) / 30 ∧
      (∀ j, j < cam_idx →
        ((sortCameras model1.cameras).map fun c => (c.framenumber : ℚ) / 30).getD j 0 <
          ([0, 1/100] : List ℚ).getD 0 0) ∧
      gstart < ([0, 1/100] : List ℚ).length ∧
      (∀ j, j < ([0, 1/100] : List ℚ).length →
        |([0, 1/100] : List ℚ).getD gstart 0 - (cam_ref.framenumber : ℚ) / 30| ≤
          |([0, 1/100] : List ℚ).getD j 0 - (cam_ref.framenumber : ℚ) / 30|) ∧
      times = ([0, 1/100] : List ℚ).drop gstart ∧
      qs = (ext0.integrate ((⟨[[1,0,0],[0,1,0]], 3⟩ : Mat).rows.drop gstart)
          (times.getD 1 0 - times.getD 0 0) (some cam_ref.orientation.conjugate)).map
        (fun q => ⟨q.w, -q.x, -q.y, -q.z⟩) := by
  have hsucc : ∃ pr, (DatasetBuilder.mk (some model1) (some 30) (some ⟨[[1,0,0],[0,1,0]], 3⟩)
      (some [0, 1/100]) none none none none)._nvm_aligned_imu_orientations ext0 = .ok pr := by
    norm_num [DatasetBuilder._nvm_aligned_imu_orientations, model1, sortCameras,
      List.insertionSort, List.orderedInsert, firstIdx, pyGet, npArgmin, ext0,
      Quat.conjugate, qOne, sub_zero, abs_zero]
  obtain ⟨⟨grandQ, grandT⟩, hres⟩ := hsucc
  exact ⟨grandQ, grandT, c5_aligned_imu_orientations_spec ext0 _ model1 30
    ⟨[[1,0,0],[0,1,0]], 3⟩ [0, 1/100] grandQ grandT rfl rfl rfl rfl hres⟩

/-! Infrastructure for claims C4 and C6: properties of np.linspace and of
the resampling loop. -/

theorem npLinspace_length (a b : ℚ) : ∀ n, (npLinspace a b n).length = n
  | 0 => rfl
  | 1 => rfl
  | (m + 2) => by
      show ((List.range (m + 2)).map fun k : ℕ => a + (b - a) * (k : ℚ) / ((m : ℚ) + 1)).length = m + 2
      rw [List.length_map, List.length_range]

theorem npLinspace_getD (a b : ℚ) (m k : ℕ) (hk : k < m + 2) :
    (npLinspace a b (m + 2)).getD k 0 = a + (b - a) * (k : ℚ) / ((m : ℚ) + 1) := by
  show ((List.range (m + 2)).map fun k : ℕ => a + (b - a) * (k : ℚ) / ((m : ℚ) + 1)).getD k 0 = _
  have hlen : k < ((List.range (m + 2)).map
      fun k : ℕ => a + (b - a) * (k : ℚ) / ((m : ℚ) + 1)).length := by
    rw [List.length_map, List.length_range]
    exact hk
  rw [List.getD_eq_get _ 0 hlen, List.get_eq_getElem, List.getElem_map, List.getElem_range]

theorem npLinspace_head (a b : ℚ) (n : ℕ) (hn : 1 ≤ n) :
    (npLinspace a b n).getD 0 0 = a := by
  match n with
  | 1 => rfl
  | Nat.succ (Nat.succ m) =>
      rw [npLinspace_getD a b m 0 (by omega)]
      simp

theorem npLinspace_last (a b : ℚ) (m : ℕ) :
    (npLinspace a b (m + 2)).getD (m + 1) 0 = b := by
  rw [npLinspace_getD a b m (m + 1) (by omega)]
  have hne : ((m : ℚ) + 1) ≠ 0 := by positivity
  push_cast
  field_simp

theorem npLinspace_mem_bounds (a b : ℚ) (n : ℕ) (hab : a ≤ b) (x : ℚ)
    (hx : x ∈ npLinspace a b n) : a ≤ x ∧ x ≤ b := by
  match n with
  | 0 => simp [npLinspace] at hx
  | 1 =>
      simp only [npLinspace, List.mem_singleton] at hx
      subst hx
      exact ⟨le_refl _, hab⟩
  | Nat.succ (Nat.succ m) =>
      have hx2 : x ∈ (List.range (m + 2)).map
          fun k : ℕ => a + (b - a) * (k : ℚ) / ((m : ℚ) + 1) := hx
      rw [List.mem_map] at hx2
      obtain ⟨j, hj, rfl⟩ := hx2
      rw [List.mem_range] at hj
      have hm1 : (0:ℚ) < (m:ℚ) + 1 := by positivity
      have hknn : (0:ℚ) ≤ (j:ℚ) := by positivity
      have hkle : (j:ℚ) ≤ (m:ℚ) + 1 := by
        have : (j:ℚ) ≤ ((m + 1 : ℕ) : ℚ) := by exact_mod_cast Nat.le_of_lt_succ hj
        push_cast at this
        linarith
      constructor
      · have : 0 ≤ (b - a) * (j:ℚ) / ((m:ℚ) + 1) :=
          div_nonneg (mul_nonneg (by linarith) hknn) (by positivity)
        linarith
      · have hstep : (b - a) * (j:ℚ) / ((m:ℚ) + 1) ≤ b - a := by
          rw [div_le_iff hm1]
          have := mul_le_mul_of_nonneg_left hkle (by linarith : (0:ℚ) ≤ b - a)
          linarith
        linarith

theorem isclose_self (t : ℚ) : npIsclose t t := by
  rw [npIsclose, sub_self, abs_zero]
  positivity

theorem firstIdx_isSome_of_exists (p : ℚ → Prop) [DecidablePred p] (l : List ℚ)
    (h : ∃ x ∈ l, p x) : (firstIdx p l).isSome := by
  rcases hfi : firstIdx p l with _ | i
  · rw [firstIdx_none_iff] at hfi
    obtain ⟨x, hx, hpx⟩ := h
    exact absurd hpx (hfi x hx)
  · rfl

/-- Every member of a nondecreasing list is at most its last element. -/
theorem mem_le_getLast_of_sorted_le (l : List ℚ) (h : l.Pairwise (· ≤ ·)) (hne : l ≠ [])
    (x : ℚ) (hx : x ∈ l) : x ≤ l.getLast hne := by
  obtain ⟨⟨i, hi⟩, rfl⟩ := List.mem_iff_get.mp hx
  rw [List.getLast_eq_get]
  rcases Nat.lt_or_ge i (l.length - 1) with hlt | hge
  · exact List.pairwise_iff_get.mp h ⟨i, hi⟩ ⟨l.length - 1, by omega⟩ hlt
  · have : i = l.length - 1 := by omega
    subst this
    exact le_refl _

/-- The head of a nondecreasing list is at most any member. -/
theorem getD_zero_le_mem_of_sorted_le (l : List ℚ) (h : l.Pairwise (· ≤ ·))
    (x : ℚ) (hx : x ∈ l) : l.getD 0 0 ≤ x := by
  obtain ⟨⟨i, hi⟩, rfl⟩ := List.mem_iff_get.mp hx
  rcases Nat.eq_zero_or_pos i with h0 | h0
  · subst h0
    rw [List.getD_eq_get _ _ (by omega)]
  · rw [List.getD_eq_get _ _ (by omega)]
    exact List.pairwise_iff_get.mp h ⟨0, by omega⟩ ⟨i, hi⟩ h0

/-- Resampling a single target time inside the sampled range succeeds. -/
theorem resampleAt_ok (ext : Ext) (qa : List Quat) (ts : List ℚ) (t : ℚ)
    (hlen : qa.length = ts.length)
    (hhead : ts.getD 0 0 ≤ t) (hex : ∃ x ∈ ts, t ≤ x) :
    ∃ q, resampleAt ext qa ts t = .ok q := by
  have hsome := firstIdx_isSome_of_exists (fun s => t ≤ s) ts hex
  rcases hfi : firstIdx (fun s => t ≤ s) ts with _ | i
  · rw [hfi] at hsome
    simp at hsome
  obtain ⟨hilen, hpi, hbef⟩ := firstIdx_spec _ ts i hfi
  have hts_i : pyGet ts (i : ℤ) = some (ts.getD i 0) := pyGet_eq_getD ts i 0 hilen
  by_cases hclose : npIsclose (ts.getD i 0) t
  · refine ⟨qa.getD i default, ?_⟩
    simp only [resampleAt, hfi, hts_i, hclose, if_true,
      pyGet_eq_getD qa i default (by omega)]
  · have hipos : 0 < i := by
      rcases Nat.eq_zero_or_pos i with h0 | h0
      · subst h0
        have heq : ts.getD 0 0 = t := le_antisymm hhead hpi
        rw [heq] at hclose
        exact absurd (isclose_self t) hclose
      · exact h0
    have hcast : (i : ℤ) - 1 = ((i - 1 : ℕ) : ℤ) := by omega
    refine ⟨ext.slerp (qa.getD (i - 1) default) (qa.getD i default)
      ((t - ts.getD (i - 1) 0) / (ts.getD i 0 - ts.getD (i - 1) 0)), ?_⟩
    simp only [resampleAt, hfi, hts_i, hclose, if_false, hcast,
      pyGet_eq_getD ts (i - 1) (0:ℚ) (by omega),
      pyGet_eq_getD qa (i - 1) default (by omega),
      pyGet_eq_getD qa i default (by omega)]

/-- Resampling exactly at the k-th sample time of a strictly increasing grid
copies the k-th quaternion. -/
theorem resampleAt_at_index (ext : Ext) (qa : List Quat) (ts : List ℚ) (k : ℕ)
    (hsorted : ts.Pairwise (· < ·)) (hlen : qa.length = ts.length) (hk : k < ts.length) :
    resampleAt ext qa ts (ts.getD k 0) = .ok (qa.getD k default) := by
  have hfi : firstIdx (fun s => ts.getD k 0 ≤ s) ts = some k :=
    firstIdx_of _ ts k hk (le_refl _)
      (fun j hj => not_le.mpr (sorted_getD_lt ts hsorted j k hj hk))
  have hclose : npIsclose (ts.getD k 0) (ts.getD k 0) := isclose_self _
  simp only [resampleAt, hfi, pyGet_eq_getD ts k (0:ℚ) hk, hclose, if_true,
    pyGet_eq_getD qa k default (by omega)]

/-- Characterization of a successful resampling loop: positional results. -/
theorem resampleLoop_spec (ext : Ext) (qa : List Quat) (ts : List ℚ) :
    ∀ (l : List ℚ) (out : List Quat), resampleLoop ext qa ts l = .ok out →
      out.length = l.length ∧
      ∀ k, k < l.length → resampleAt ext qa ts (l.getD k 0) = .ok (out.getD k default)
  | [], out => by
      intro h
      simp only [resampleLoop, Except.ok.injEq] at h
      subst h
      exact ⟨rfl, fun k hk => absurd hk (by simp)⟩
  | t :: rest, out => by
      intro h
      rw [resampleLoop] at h
      rcases h1 : resampleAt ext qa ts t with e | q
      · rw [h1] at h
        exact absurd h (by simp)
      rw [h1] at h
      rcases h2 : resampleLoop ext qa ts rest with e | qs
      · rw [h2] at h
        exact absurd h (by simp)
      rw [h2] at h
      simp only [Except.ok.injEq] at h
      subst h
      obtain ⟨hl, hs⟩ := resampleLoop_spec ext qa ts rest qs h2
      refine ⟨by simpa using hl, ?_⟩
      intro k hk
      cases k with
      | zero => simpa using h1
      | succ k' =>
          simp only [List.getD_cons_succ]
          exact hs k' (by simpa using hk)

/-- The resampling loop succeeds when every target point does. -/
theorem resampleLoop_ok (ext : Ext) (qa : List Quat) (ts : List ℚ) :
    ∀ (l : List ℚ), (∀ t ∈ l, ∃ q, resampleAt ext qa ts t = .ok q) →
      ∃ out, resampleLoop ext qa ts l = .ok out
  | [] => fun _ => ⟨[], rfl⟩
  | t :: rest => by
      intro h
      obtain ⟨q, hq⟩ := h t (by simp)
      obtain ⟨out, hout⟩ := resampleLoop_ok ext qa ts rest
        (fun u hu => h u (by simp [hu]))
      exact ⟨q :: out, by rw [resampleLoop, hq, hout]⟩

/-- Successful resampling with the default target count: the output
timestamps are the linspace over the sampled range with the input count. -/
theorem resample_ok (ext : Ext) (qa : List Quat) (ts : List ℚ)
    (hne : ts ≠ []) (hsort : ts.Pairwise (· ≤ ·)) (hlen : qa.length = ts.length) :
    ∃ vals, resample_quaternion_array ext qa ts none =
        .ok (vals, npLinspace (ts.getD 0 0) (ts.getLast hne) qa.length) ∧
      vals.length = qa.length ∧
      ∀ k, k < qa.length →
        resampleAt ext qa ts ((npLinspace (ts.getD 0 0) (ts.getLast hne) qa.length).getD k 0) =
          .ok (vals.getD k default) := by
  have hlenpos : 0 < ts.length := List.length_pos.mpr hne
  have h0 : pyGet ts (0 : ℤ) = some (ts.getD 0 0) := pyGet_eq_getD ts 0 0 hlenpos
  have hm1 : pyGet ts (-1 : ℤ) = some (ts.getLast hne) := pyGet_neg_one ts hne
  have hab : ts.getD 0 0 ≤ ts.getLast hne :=
    getD_zero_le_mem_of_sorted_le ts hsort _ (List.getLast_mem hne)
  have hall : ∀ t ∈ npLinspace (ts.getD 0 0) (ts.getLast hne) qa.length,
      ∃ q, resampleAt ext qa ts t = .ok q := by
    intro t ht
    obtain ⟨hta, htb⟩ := npLinspace_mem_bounds _ _ _ hab t ht
    exact resampleAt_ok ext qa ts t hlen hta ⟨ts.getLast hne, List.getLast_mem hne, htb⟩
  obtain ⟨out, hout⟩ := resampleLoop_ok ext qa ts _ hall
  obtain ⟨holen, hospec⟩ := resampleLoop_spec ext qa ts _ _ hout
  refine ⟨out, ?_, by rw [holen, npLinspace_length], ?_⟩
  · rw [resample_quaternion_array]
    simp only [Option.getD_none, h0, hm1, hout]
  · intro k hk
    exact hospec k (by rw [npLinspace_length]; exact hk)

/-- The elements of an evenly spaced list follow the arithmetic formula. -/
theorem evenSpaced_getD (ts : List ℚ) (d : ℚ) (h : evenSpaced ts d) :
    ∀ k, k < ts.length → ts.getD k 0 = ts.getD 0 0 + k * d := by
  intro k
  induction k with
  | zero => intro hk; simp
  | succ k' ih =>
      intro hk
      have h1 := h k' (by omega)
      have h2 := ih (by omega)
      push_cast
      linarith

/-- A uniformly spaced list coincides with the linspace over its range with
its own length. -/
theorem npLinspace_of_evenSpaced (ts : List ℚ) (d : ℚ) (h : evenSpaced ts d)
    (hne : ts ≠ []) :
    npLinspace (ts.getD 0 0) (ts.getLast hne) ts.length = ts := by
  rcases hl : ts.length with _ | n
  · exact absurd (List.length_eq_zero.mp hl) hne
  rcases n with _ | m
  · -- singleton
    rcases ts with _ | ⟨x, rest⟩
    · exact absurd rfl hne
    · have hr : rest.length = 0 := by simpa using hl
      have : rest = [] := List.length_eq_zero.mp hr
      subst this
      rfl
  · -- length m + 2
    have hlen2 : ts.length = m + 2 := by omega
    have hlast : ts.getLast hne = ts.getD 0 0 + ((m + 1 : ℕ) : ℚ) * d := by
      rw [getLast_eq_getD ts hne, hlen2]
      exact (by simpa using evenSpaced_getD ts d h (m + 1) (by omega))
    apply List.ext_get
    · rw [npLinspace_length, hl]
    · intro k h1 h2
      rw [← List.getD_eq_get _ 0 h1, ← List.getD_eq_get _ 0 h2]
      rw [npLinspace_length] at h1
      have hk2 : k < m + 2 := by omega
      rw [show m + 1 + 1 = m + 2 from rfl, npLinspace_getD _ _ m k hk2, hlast]
      rw [evenSpaced_getD ts d h k h2]
      have hm1 : ((m:ℚ) + 1) ≠ 0 := by positivity
      push_cast
      field_simp
      ring

/-! Claim C6: resample_quaternion_array with the default target count. -/

/-- Consecutive differences of an n-point linspace are the constant step. -/
theorem npLinspace_evenSpaced (a b : ℚ) (n : ℕ) :
    evenSpaced (npLinspace a b n) ((b - a) / ((n : ℚ) - 1)) := by
  intro k hk
  rw [npLinspace_length] at hk
  match n, hk with
  | (m + 2), hk =>
      rw [npLinspace_getD _ _ m (k + 1) (by omega), npLinspace_getD _ _ m k (by omega)]
      have hm1 : ((m:ℚ) + 1) ≠ 0 := by positivity
      have hm2 : ((m:ℚ) + 2) - 1 ≠ 0 := by
        intro hzero
        have : (m:ℚ) = -1 := by linarith
        have : (0:ℚ) ≤ (m:ℚ) := by positivity
        linarith
      push_cast
      field_simp
      ring

/-- C6: resampling with the default target count produces exactly the input
count of timestamps, evenly spaced between the first and last input
timestamp; the first output sample equals the original first sample and the
last equals the original last; and on an already uniformly spaced input
every output value equals the original value at the same index. -/
theorem c6_resample_default_roundtrip (ext : Ext) (qa : List Quat) (ts : List ℚ)
    (hlen : qa.length = ts.length) (h2 : 2 ≤ ts.length) (hne : ts ≠ [])
    (hsorted : ts.Pairwise (· < ·)) :
    ∃ vals,
      resample_quaternion_array ext qa ts none =
        .ok (vals, npLinspace (ts.getD 0 0) (ts.getLast hne) qa.length) ∧
      (npLinspace (ts.getD 0 0) (ts.getLast hne) qa.length).length = qa.length ∧
      (npLinspace (ts.getD 0 0) (ts.getLast hne) qa.length).getD 0 0 = ts.getD 0 0 ∧
      (npLinspace (ts.getD 0 0) (ts.getLast hne) qa.length).getD (qa.length - 1) 0 =
        ts.getLast hne ∧
      evenSpaced (npLinspace (ts.getD 0 0) (ts.getLast hne) qa.length)
        ((ts.getLast hne - ts.getD 0 0) / ((qa.length : ℚ) - 1)) ∧
      vals.length = qa.length ∧
      vals.getD 0 default = qa.getD 0 default ∧
      vals.getD (qa.length - 1) default = qa.getD (qa.length - 1) default ∧
      ∀ d, evenSpaced ts d →
        npLinspace (ts.getD 0 0) (ts.getLast hne) qa.length = ts ∧ vals = qa := by
  have hsle : ts.Pairwise (· ≤ ·) := hsorted.imp le_of_lt
  obtain ⟨vals, hres, hvlen, hspec⟩ := resample_ok ext qa ts hne hsle hlen
  obtain ⟨m, hm⟩ : ∃ m, qa.length = m + 2 := ⟨qa.length - 2, by omega⟩
  have hlin_head : (npLinspace (ts.getD 0 0) (ts.getLast hne) qa.length).getD 0 0 =
      ts.getD 0 0 := npLinspace_head _ _ _ (by omega)
  have hlin_last : (npLinspace (ts.getD 0 0) (ts.getLast hne) qa.length).getD
      (qa.length - 1) 0 = ts.getLast hne := by
    rw [hm, show m + 2 - 1 = m + 1 from rfl]
    exact npLinspace_last _ _ m
  have hfirstval : vals.getD 0 default = qa.getD 0 default := by
    have h0 := hspec 0 (by omega)
    rw [hlin_head] at h0
    have h1 := resampleAt_at_index ext qa ts 0 hsorted hlen (by omega)
    have := h0.symm.trans h1
    simpa using this
  have hlastval : vals.getD (qa.length - 1) default = qa.getD (qa.length - 1) default := by
    have h0 := hspec (qa.length - 1) (by omega)
    rw [hlin_last, getLast_eq_getD ts hne, ← hlen] at h0
    have h1 := resampleAt_at_index ext qa ts (qa.length - 1) hsorted hlen (by omega)
    have := h0.symm.trans h1
    simpa using this
  refine ⟨vals, hres, by rw [npLinspace_length], hlin_head, hlin_last,
    npLinspace_evenSpaced _ _ _, hvlen, hfirstval, hlastval, ?_⟩
  intro d hd
  have hline : npLinspace (ts.getD 0 0) (ts.getLast hne) qa.length = ts := by
    rw [hlen]
    exact npLinspace_of_evenSpaced ts d hd hne
  refine ⟨hline, ?_⟩
  apply List.ext_get
  · rw [hvlen]
  · intro k hk1 hk2
    rw [← List.getD_eq_get _ default hk1, ← List.getD_eq_get _ default hk2]
    have h0 := hspec k (by rw [← hvlen]; exact hk1)
    rw [hline] at h0
    have h1 := resampleAt_at_index ext qa ts k hsorted hlen (by omega)
    have := h0.symm.trans h1
    simpa using this

/-- C6 witness at a concrete two-sample series. -/
theorem c6_resample_default_roundtrip_witness :
    ∃ vals,
      resample_quaternion_array ext0 [qOne, qOne] [0, 1] none =
        .ok (vals, npLinspace (([0, 1] : List ℚ).getD 0 0)
          (([0, 1] : List ℚ).getLast (by simp)) ([qOne, qOne] : List Quat).length) ∧
      (npLinspace (([0, 1] : List ℚ).getD 0 0) (([0, 1] : List ℚ).getLast (by simp))
        ([qOne, qOne] : List Quat).length).length = ([qOne, qOne] : List Quat).length ∧
      (npLinspace (([0, 1] : List ℚ).getD 0 0) (([0, 1] : List ℚ).getLast (by simp))
        ([qOne, qOne] : List Quat).length).getD 0 0 = ([0, 1] : List ℚ).getD 0 0 ∧
      (npLinspace (([0, 1] : List ℚ).getD 0 0) (([0, 1] : List ℚ).getLast (by simp))
        ([qOne, qOne] : List Quat).length).getD (([qOne, qOne] : List Quat).length - 1) 0 =
        ([0, 1] : List ℚ).getLast (by simp) ∧
      evenSpaced (npLinspace (([0, 1] : List ℚ).getD 0 0)
        (([0, 1] : List ℚ).getLast (by simp)) ([qOne, qOne] : List Quat).length)
        ((([0, 1] : List ℚ).getLast (by simp) - ([0, 1] : List ℚ).getD 0 0) /
          ((([qOne, qOne] : List Quat).length : ℚ) - 1)) ∧
      vals.length = ([qOne, qOne] : List Quat).length ∧
      vals.getD 0 default = ([qOne, qOne] : List Quat).getD 0 default ∧
      vals.getD (([qOne, qOne] : List Quat).length - 1) default =
        ([qOne, qOne] : List Quat).getD (([qOne, qOne] : List Quat).length - 1) default ∧
      ∀ d, evenSpaced [0, 1] d →
        npLinspace (([0, 1] : List ℚ).getD 0 0) (([0, 1] : List ℚ).getLast (by simp))
          ([qOne, qOne] : List Quat).length = [0, 1] ∧ vals = [qOne, qOne] :=
  c6_resample_default_roundtrip ext0 [qOne, qOne] [0, 1] rfl (by norm_num) (by simp)
    (by norm_num [List.pairwise_cons])

/-! Claim C4: build with all selectors on the reconstruction source. -/

/-- The time-mapping loop with a frame rate and no explicit function maps
every camera through division by the frame rate. -/
theorem cameraTimesLoop_fps (fps : ℚ) (hfps : fps ≠ 0) :
    ∀ cs : List Camera, cameraTimesLoop none (some fps) cs =
      .ok (cs.map fun c => (c.framenumber : ℚ) / fps)
  | [] => rfl
  | c :: cs => by
      simp [cameraTimesLoop, frameTime, hfps, cameraTimesLoop_fps fps hfps cs]

/-- getLastD of a nonempty list is its last element. -/
theorem getLastD_eq_getLast (l : List ℚ) (d : ℚ) (hne : l ≠ []) :
    l.getLastD d = l.getLast hne := by
  rw [List.getLastD_eq_getLast?, List.getLast?_eq_getLast l hne]
  rfl

/-- Sorting the cameras preserves the number of cameras. -/
theorem sortCameras_length (cs : List Camera) : (sortCameras cs).length = cs.length :=
  (List.perm_insertionSort camLE cs).length_eq

/-- The mapped camera times are nondecreasing for a positive frame rate. -/
theorem camTimesOf_sorted (model : NvmModel) (fps : ℚ) (hfps : 0 < fps) :
    (camTimesOf model fps).Pairwise (· ≤ ·) := by
  apply List.Pairwise.map
  · intro a b hab
    exact (div_le_div_right hfps).mpr (by exact_mod_cast hab)
  · exact List.sorted_insertionSort camLE model.cameras

/-- Shared computation for C4: building with all three selectors on the
reconstruction source yields landmarks copied from the points, a position
series over the exact mapped camera times, and an orientation series over
the count-preserving uniform grid spanning those times, which coincides with
the camera times exactly when they are evenly spaced. -/
theorem build_allnvm_spec (ext : Ext) (b : DatasetBuilder) (model : NvmModel) (fps : ℚ)
    (hm : b._nvm_model = some model) (hf : b._nvm_camera_fps = some fps) (hfps : 0 < fps)
    (ho : b._orientation_source = some "nvm") (hp : b._position_source = some "nvm")
    (hl : b._landmark_source = some "nvm") (hcams : model.cameras ≠ []) :
    ∃ ds vals,
      b.build ext = .ok ds ∧
      ds.landmarks = model.points.map (fun p => ⟨p.position⟩) ∧
      ds._position_data = some
        (camTimesOf model fps, (sortCameras model.cameras).map (·.position)) ∧
      vals.length = model.cameras.length ∧
      ds._orientation_data = some
        (npLinspace ((camTimesOf model fps).getD 0 0) ((camTimesOf model fps).getLastD 0)
          model.cameras.length, vals) ∧
      (∀ d, evenSpaced (camTimesOf model fps) d →
        npLinspace ((camTimesOf model fps).getD 0 0) ((camTimesOf model fps).getLastD 0)
          model.cameras.length = camTimesOf model fps) := by
  have hfne : fps ≠ 0 := ne_of_gt hfps
  have hscne : sortCameras model.cameras ≠ [] := by
    intro h
    apply hcams
    have hlen := sortCameras_length model.cameras
    rw [h] at hlen
    exact List.length_eq_zero.mp hlen.symm
  have hctne : camTimesOf model fps ≠ [] := by
    rw [camTimesOf]
    simpa using hscne
  have hctlen : (camTimesOf model fps).length = model.cameras.length := by
    rw [camTimesOf, List.length_map, sortCameras_length]
  have hsorted := camTimesOf_sorted model fps hfps
  have hqalen : (ext.unflip ((sortCameras model.cameras).map (·.orientation))).length =
      (camTimesOf model fps).length := by
    rw [ext.unflip_length, List.length_map, camTimesOf, List.length_map]
  obtain ⟨vals, hres, hvlen, _⟩ :=
    resample_ok ext (ext.unflip ((sortCameras model.cameras).map (·.orientation)))
      (camTimesOf model fps) hctne hsorted hqalen
  have hcount : (ext.unflip ((sortCameras model.cameras).map (·.orientation))).length =
      model.cameras.length := by rw [hqalen, hctlen]
  have hLD : (camTimesOf model fps).getLastD 0 = (camTimesOf model fps).getLast hctne :=
    getLastD_eq_getLast _ 0 hctne
  -- the orientation ingestion computation
  have horient : ∀ dsIn : Dataset,
      dsIn.orientation_from_nvm ext (some model) none (some fps) =
      (Dataset._update_trajectory { dsIn with _orientation_data := some (npLinspace ((camTimesOf model fps).getD 0 0) ((camTimesOf model fps).getLast hctne) (ext.unflip ((sortCameras model.cameras).map (·.orientation))).length, vals) }, none) := by
    intro dsIn
    rw [Dataset.orientation_from_nvm, if_neg (by simp)]
    simp only [cameraTimesLoop_fps fps hfne]
    have hres2 : resample_quaternion_array ext
        (ext.unflip ((sortCameras model.cameras).map (·.orientation)))
        ((sortCameras model.cameras).map fun c => (c.framenumber : ℚ) / fps) none =
        .ok (vals, npLinspace ((camTimesOf model fps).getD 0 0)
          ((camTimesOf model fps).getLast hctne)
          (ext.unflip ((sortCameras model.cameras).map (·.orientation))).length) := hres
    rw [hres2]
  -- the position ingestion computation
  have hposition : ∀ dsIn : Dataset,
      dsIn.position_from_nvm (some model) none (some fps) =
      (Dataset._update_trajectory { dsIn with _position_data := some (camTimesOf model fps, (sortCameras model.cameras).map (·.position)) }, none) := by
    intro dsIn
    rw [Dataset.position_from_nvm, if_neg (by simp)]
    simp only [cameraTimesLoop_fps fps hfne]
    have hie : (sortCameras model.cameras).isEmpty = false := by
      rcases hsc : sortCameras model.cameras with _ | ⟨c, cs⟩
      · exact absurd hsc hscne
      · rfl
    rw [hie]
    rfl
  refine ⟨Dataset.mk (some (camTimesOf model fps, (sortCameras model.cameras).map (·.position))) (some (npLinspace ((camTimesOf model fps).getD 0 0) ((camTimesOf model fps).getLast hctne) (ext.unflip ((sortCameras model.cameras).map (·.orientation))).length, vals)) (some (Trajectory.splinedFull (camTimesOf model fps, (sortCameras model.cameras).map (·.position)) (npLinspace ((camTimesOf model fps).getD 0 0) ((camTimesOf model fps).getLast hctne) (ext.unflip ((sortCameras model.cameras).map (·.orientation))).length, vals))) (model.points.map fun p => ⟨p.position⟩),
    vals, ?_, rfl, rfl, by rw [hvlen, hqalen, hctlen], ?_, ?_⟩
  · rw [DatasetBuilder.build,
      if_neg (by simp [DatasetBuilder._can_build, ho, hp, hl]),
      if_neg (by simp [hl]), hm, hf]
    simp only [Dataset.landmarks_from_nvm]
    try dsimp only
    rw [if_pos ⟨ho, hp, hl⟩]
    rw [horient _]
    try dsimp only
    rw [hposition _]
    try dsimp only [Dataset._update_trajectory]
    try rfl
  · show some _ = some _
    rw [hLD, ← hcount]
  · intro d hd
    rw [hLD, ← hctlen]
    exact npLinspace_of_evenSpaced _ d hd hctne

/-- C4 counterexample: with cameras at frames 0, 1, 3 and frame rate 1, the
all-reconstruction build produces a position series over the exact camera
times 0, 1, 3 but an orientation series over the uniform grid 0, 1.5, 3 —
the two timestamp lists differ, contradicting the claim that they are
identical and equal to the mapped camera times. -/
theorem c4_counterexample :
    ∃ ds, DatasetBuilder.build ext0 b4 = .ok ds ∧
      ds._position_data.map Prod.fst = some [0, 1, 3] ∧
      ds._orientation_data.map Prod.fst = some [0, 3/2, 3] ∧
      ds._orientation_data.map Prod.fst ≠ ds._position_data.map Prod.fst := by
  obtain ⟨ds, vals, hbuild, hlm, hpos, hvlen, hori, huni⟩ :=
    build_allnvm_spec ext0 b4 model4 1 rfl rfl (by norm_num) rfl rfl rfl (by simp [model4])
  have hct : camTimesOf model4 1 = [0, 1, 3] := by
    norm_num [camTimesOf, sortCameras, model4, List.insertionSort, List.orderedInsert, camLE]
  have hlin : npLinspace 0 3 3 = [0, 3/2, 3] := by
    show (List.range 3).map (fun k : ℕ => (0:ℚ) + (3 - 0) * (k:ℚ) / ((1:ℚ) + 1)) = [0, 3/2, 3]
    norm_num [List.range_succ]
  have h1 : ds._position_data.map Prod.fst = some [0, 1, 3] := by
    rw [hpos, hct]
    rfl
  have h2 : ds._orientation_data.map Prod.fst = some [0, 3/2, 3] := by
    rw [hori, hct]
    show some (npLinspace (([0, 1, 3] : List ℚ).getD 0 0) (([0, 1, 3] : List ℚ).getLastD 0)
      model4.cameras.length) = some [0, 3/2, 3]
    rw [show (([0, 1, 3] : List ℚ).getD 0 0) = 0 from rfl,
      show (([0, 1, 3] : List ℚ).getLastD 0) = 3 from rfl,
      show model4.cameras.length = 3 from rfl, hlin]
  refine ⟨ds, hbuild, h1, h2, ?_⟩
  rw [h1, h2]
  intro hcontra
  simp only [Option.some.injEq] at hcontra
  have : (3:ℚ)/2 = 1 := by
    have := congrArg (fun l : List ℚ => l.getD 1 0) hcontra
    simpa using this
  norm_num at this

/-- C4 amended: with all three selectors on the reconstruction source, build
returns a dataset whose landmark list has exactly one landmark per
reconstruction point with the same positions in order, whose position series
timestamps are the mapped camera times (frame number over frame rate, in
ascending frame order), and whose orientation series has the same number of
samples over a uniform grid spanning the same first and last camera time —
equal to the position timestamps exactly when the mapped camera times are
already evenly spaced, but not in general. -/
theorem c4_allnvm_build (ext : Ext) (b : DatasetBuilder) (model : NvmModel) (fps : ℚ)
    (hm : b._nvm_model = some model) (hf : b._nvm_camera_fps = some fps) (hfps : 0 < fps)
    (ho : b._orientation_source = some "nvm") (hp : b._position_source = some "nvm")
    (hl : b._landmark_source = some "nvm") (hcams : model.cameras ≠ []) :
    ∃ ds vals,
      b.build ext = .ok ds ∧
      ds.landmarks = model.points.map (fun p => ⟨p.position⟩) ∧
      ds._position_data = some
        (camTimesOf model fps, (sortCameras model.cameras).map (·.position)) ∧
      vals.length = model.cameras.length ∧
      ds._orientation_data = some
        (npLinspace ((camTimesOf model fps).getD 0 0) ((camTimesOf model fps).getLastD 0)
          model.cameras.length, vals) ∧
      (∀ d, evenSpaced (camTimesOf model fps) d →
        npLinspace ((camTimesOf model fps).getD 0 0) ((camTimesOf model fps).getLastD 0)
          model.cameras.length = camTimesOf model fps) :=
  build_allnvm_spec ext b model fps hm hf hfps ho hp hl hcams

/-- C4 witness: the amended statement at the concrete builder b4. -/
theorem c4_allnvm_build_witness :
    ∃ ds vals,
      DatasetBuilder.build ext0 b4 = .ok ds ∧
      ds.landmarks = model4.points.map (fun p => ⟨p.position⟩) ∧
      ds._position_data = some
        (camTimesOf model4 1, (sortCameras model4.cameras).map (·.position)) ∧
      vals.length = model4.cameras.length ∧
      ds._orientation_data = some
        (npLinspace ((camTimesOf model4 1).getD 0 0) ((camTimesOf model4 1).getLastD 0)
          model4.cameras.length, vals) ∧
      (∀ d, evenSpaced (camTimesOf model4 1) d →
        npLinspace ((camTimesOf model4 1).getD 0 0) ((camTimesOf model4 1).getLastD 0)
          model4.cameras.length = camTimesOf model4 1) :=
  c4_allnvm_build ext0 b4 model4 1 rfl rfl (by norm_num) rfl rfl rfl (by simp [model4])

end Rsimusim
